import Mathlib

/-!
Verification of the CSV/IIF/QBO exporter core against its specification.

This development shallowly embeds the three subsystems of the repository:

* the ledger ingestion and reporting-day grouping engine
  (src/services/csvProcessor.ts: parseShopifyCSV, parsePaypalCSV,
  groupTransactionsByDate, getReportingDateString);
* the legacy IIF converter
  (ConverterService: convertGL, convertBills, parseAmount, getVal);
* the QuickBooks sync layer
  (QBSyncService: refreshMappings, syncJournalEntries, syncBills,
  findAccountId, formatDate).

Modelling conventions:

* JavaScript numbers are modelled as exact rationals; a possibly-NaN
  number is an Option ℚ with none standing for NaN (the programs only
  ever produce NaN through failed parses, and NaN propagates through
  the arithmetic below exactly as in JS).  All arithmetic definitions
  are written on num/den so that the kernel can evaluate them; bridge
  lemmas relate them to the usual field operations on ℚ.
* JavaScript objects used as string-keyed dictionaries are modelled as
  insertion-ordered association lists with update-in-place semantics
  (assigning to an existing key keeps its position, a new key is
  appended), matching the enumeration order of string keys.
* Date values are modelled structurally: a JSDate carries the local
  calendar date and time-of-day fields that the code reads via
  getHours/setDate/toLocaleDateString.  Parsing of a date string
  (the JS Date constructor) is taken as a parameter where the code
  under study is parametric in it.
* External HTTP calls (QuickBooks API posts) are taken as oracle
  parameters returning success or a thrown error message.
-/

/-! JavaScript number model -/

/-- Possibly-NaN JavaScript number: none is NaN, some q an exact value. -/
abbrev QNum := Option ℚ

/-- Math.round, i.e. ⌊q + 1/2⌋, computed on the numerator and denominator
so that the kernel can evaluate it. -/
def jsRound (q : ℚ) : ℤ :=
  (2 * q.num + (q.den : ℤ)) / (2 * (q.den : ℤ))

/-- Multiplication of a rational by 100, computed on the numerator. -/
def qscale100 (q : ℚ) : ℚ :=
  mkRat (q.num * 100) q.den

/-- Value of an integer number of cents, i.e. k / 100. -/
def ofCents (k : ℤ) : ℚ :=
  mkRat k 100

/-- Math.round(q * 100): the integer number of cents nearest to q. -/
def roundCents (q : ℚ) : ℤ :=
  jsRound (qscale100 q)

/-- Math.abs on an exact rational, computed on the numerator. -/
def jsAbs (q : ℚ) : ℚ :=
  mkRat (q.num.natAbs : ℤ) q.den

/-- Two-digit zero padding for the fractional part of toFixed(2). -/
def pad2 (n : ℕ) : String :=
  if n < 10 then "0" ++ Nat.repr n else Nat.repr n

/-- Number.prototype.toFixed(2): sign, then the absolute value rounded
half-up to an integer number of cents and rendered with two decimals. -/
def jsToFixed2 (q : ℚ) : String :=
  let c : ℕ := (2 * q.num.natAbs * 100 + q.den) / (2 * q.den)
  (if q < 0 then "-" else "") ++ Nat.repr (c / 100) ++ "." ++ pad2 (c % 100)

/-- toFixed(2) lifted to a possibly-NaN number: NaN.toFixed(2) = "NaN". -/
def jsToFixed2N (x : QNum) : String :=
  match x with
  | none => "NaN"
  | some q => jsToFixed2 q

/-- Cent-safe addition (Math.round(a*100) + Math.round(b*100)) / 100,
with NaN propagation. -/
def centAdd (a b : QNum) : QNum :=
  match a, b with
  | some x, some y => some (ofCents (roundCents x + roundCents y))
  | _, _ => none

/-- Cent-safe running sum of a list of possibly-NaN numbers, folding
centAdd from 0 exactly as the incremental subtotal updates do. -/
def centSum (l : List QNum) : QNum :=
  l.foldl centAdd (some 0)

/-- One step of the grand-total reduce: sum + Math.round(t * 100) over an
integer accumulator, with NaN propagation. -/
def centAccum (s : Option ℤ) (x : QNum) : Option ℤ :=
  match s, x with
  | some a, some q => some (a + roundCents q)
  | _, _ => none

/-- Grand total: reduce to integer cents, then divide once by 100. -/
def centTotal (l : List QNum) : QNum :=
  (l.foldl centAccum (some 0)).map ofCents

/-! JavaScript parseFloat model -/

/-- Numeric value of a decimal digit character. -/
def digitVal (c : Char) : ℕ := c.toNat - 48

/-- Consume a maximal run of decimal digits, returning the accumulated
value, the number of digits consumed, and the rest of the input. -/
def takeDigits (acc : ℕ) (count : ℕ) : List Char → ℕ × ℕ × List Char
  | [] => (acc, count, [])
  | c :: cs =>
    if c.isDigit then takeDigits (acc * 10 + digitVal c) (count + 1) cs
    else (acc, count, c :: cs)

/-- Optional sign at the head of the input. -/
def takeSign : List Char → ℤ × List Char
  | '-' :: cs => (-1, cs)
  | '+' :: cs => (1, cs)
  | cs => (1, cs)

/-- Exponent part of a float literal after the e/E marker: an optional
sign and digits; without digits the exponent contributes nothing. -/
def takeExp (cs : List Char) : ℤ :=
  let sc := takeSign cs
  let d := takeDigits 0 0 sc.2
  if d.2.1 = 0 then 0 else sc.1 * d.1

/-- Value mant * 10 ^ e as an exact rational. -/
def decValue (mant : ℤ) (e : ℤ) : ℚ :=
  if 0 ≤ e then mkRat (mant * 10 ^ e.toNat) 1 else mkRat mant (10 ^ (-e).toNat)

/-- parseFloat on an exploded string: skip leading whitespace, optional
sign, integer digits, optional fraction, optional exponent; NaN (none)
when no digit was consumed.  (The Infinity literals, which never occur
in this program's data, are not modelled.) -/
def jsParseFloatCore (cs0 : List Char) : Option ℚ :=
  let cs1 := cs0.dropWhile (fun c => c.isWhitespace)
  let sg := takeSign cs1
  let ip := takeDigits 0 0 sg.2
  let fp :=
    match ip.2.2 with
    | '.' :: r => takeDigits 0 0 r
    | _ => (0, 0, ip.2.2)
  if ip.2.1 = 0 ∧ fp.2.1 = 0 then none
  else
    let e : ℤ :=
      match fp.2.2 with
      | 'e' :: r => takeExp r
      | 'E' :: r => takeExp r
      | _ => 0
    let mant : ℤ := sg.1 * ((ip.1 * 10 ^ fp.2.1 + fp.1 : ℕ) : ℤ)
    some (decValue mant (e - (fp.2.1 : ℤ)))

/-- parseFloat on a string. -/
def jsParseFloat (s : String) : Option ℚ :=
  jsParseFloatCore s.data

/-- The replace(/[^0-9.-]+/g, "") cleanup applied to raw amount cells. -/
def stripNonNumeric (s : String) : String :=
  ⟨s.data.filter (fun c => c.isDigit || c == '.' || c == '-')⟩

/-! Kernel-evaluable string primitives.  The corresponding String
library functions are byte-position based and opaque to the kernel, so
the embedding uses these character-list implementations of the same
JavaScript operations. -/

/-- s.startsWith(pre). -/
def jsStartsWith (s pre : String) : Bool :=
  pre.data.isPrefixOf s.data

/-- s.trim(): whitespace stripped from both ends. -/
def jsTrim (s : String) : String :=
  ⟨((s.data.dropWhile Char.isWhitespace).reverse.dropWhile
    Char.isWhitespace).reverse⟩

/-- Split a character list at every occurrence of the separator. -/
def splitChar (c : Char) : List Char → List (List Char)
  | [] => [[]]
  | a :: as =>
    match splitChar c as with
    | [] => [[]]
    | h :: t => if a == c then [] :: h :: t else (a :: h) :: t

/-- s.split(c) for a single-character separator. -/
def splitOnChar (c : Char) (s : String) : List String :=
  (splitChar c s.data).map (fun l => ⟨l⟩)

/-- Strict lexicographic comparison on code points, the JS < on
strings restricted to the BMP. -/
def strLtB (a b : String) : Bool :=
  lexLt a.data b.data
where
  /-- Lexicographic < on character lists. -/
  lexLt : List Char → List Char → Bool
    | _, [] => false
    | [], _ :: _ => true
    | x :: xs, y :: ys =>
      if x.toNat < y.toNat then true
      else if y.toNat < x.toNat then false
      else lexLt xs ys

/-- Non-strict lexicographic comparison. -/
def strLeB (a b : String) : Bool :=
  !(strLtB b a)

/-- s.slice(-2): the final two characters. -/
def lastTwo (s : String) : String :=
  ⟨s.data.drop (s.data.length - 2)⟩

/-! JavaScript Date model -/

/-- Local calendar date and time of day of a JS Date, with the month
1-based as it appears in toLocaleDateString output. -/
structure JSDate where
  year : ℕ
  month : ℕ
  day : ℕ
  hour : ℕ
  minute : ℕ
  second : ℕ
deriving DecidableEq, Repr

/-- Gregorian leap-year rule used by the Date rollover arithmetic. -/
def isLeapYear (y : ℕ) : Bool :=
  (y % 4 == 0 && y % 100 != 0) || y % 400 == 0

/-- Days in a month of a given year. -/
def daysInMonth (y m : ℕ) : ℕ :=
  if m = 2 then (if isLeapYear y then 29 else 28)
  else if m = 4 ∨ m = 6 ∨ m = 9 ∨ m = 11 then 30
  else 31

/-- date.setDate(date.getDate() + 1): move to the next calendar day,
rolling over month and year boundaries, keeping the time of day. -/
def nextCalendarDay (d : JSDate) : JSDate :=
  if d.day < daysInMonth d.year d.month then { d with day := d.day + 1 }
  else if d.month < 12 then { d with month := d.month + 1, day := 1 }
  else { d with year := d.year + 1, month := 1, day := 1 }

/-- toLocaleDateString in the en-US locale: M/D/YYYY. -/
def localeDateString (d : JSDate) : String :=
  Nat.repr d.month ++ "/" ++ Nat.repr d.day ++ "/" ++ Nat.repr d.year

/-- Order-faithful model of Date.getTime on local fields: a radix
encoding that is strictly monotone in (year, month, day, hour, minute,
second), which is all the sort comparator observes. -/
def jsGetTime (d : JSDate) : ℕ :=
  ((((d.year * 13 + d.month) * 32 + d.day) * 24 + d.hour) * 60 + d.minute) * 60
    + d.second

/-! Canonical transactions and daily groups (src/types.ts) -/

/-- One normalized ledger entry (interface ShopifyTransaction). -/
structure Transaction where
  id : String
  orderNumber : String
  dateTime : String
  customerName : String
  amount : QNum
  fee : QNum
  net : QNum
  type' : String
  cardBrand : String
  currency : String
  sourceFile : String
deriving DecidableEq, Repr

/-- A reporting-day bucket (interface DailyGroup). -/
structure DailyGroup where
  date : String
  subtotal : QNum
  subtotalFees : QNum
  subtotalNet : QNum
  count : ℕ
  transactions : List Transaction
deriving DecidableEq, Repr

/-- Aggregate view over a run (interface ReportSummary). -/
structure ReportSummary where
  dateRange : String
  totalAmount : QNum
  totalFees : QNum
  totalNet : QNum
  transactionCount : ℕ
  dailyGroups : List DailyGroup
  allTransactions : List Transaction
deriving DecidableEq, Repr

/-! Reporting-day grouping (csvProcessor.ts, groupTransactionsByDate) -/

/-- getReportingDateString: parse the timestamp, and when the local hour
is 16 or later report the next calendar date, else the same date.
dparse is the JS Date constructor on strings, a parameter of the model. -/
def getReportingDateString (dparse : String → JSDate) (isoString : String) :
    String :=
  let date := dparse isoString
  if 16 ≤ date.hour then localeDateString (nextCalendarDay date)
  else localeDateString date

/-- A freshly opened group for a reporting date, before any append. -/
def emptyGroup (date : String) : DailyGroup :=
  { date := date, subtotal := some 0, subtotalFees := some 0
    subtotalNet := some 0, count := 0, transactions := [] }

/-- Append one transaction to the current group, updating the cent-safe
subtotals incrementally. -/
def appendTx (g : DailyGroup) (t : Transaction) : DailyGroup :=
  { g with
    transactions := g.transactions ++ [t]
    subtotal := centAdd g.subtotal t.amount
    subtotalFees := centAdd g.subtotalFees t.fee
    subtotalNet := centAdd g.subtotalNet t.net
    count := g.count + 1 }

/-- State of the single grouping walk: emitted groups plus the group
currently being filled. -/
structure GroupState where
  done : List DailyGroup
  current : Option DailyGroup
deriving Repr

/-- One step of the grouping walk: open a new group when the reporting
date differs from the current group's date, emitting the current one. -/
def groupStep (dparse : String → JSDate) (st : GroupState) (t : Transaction) :
    GroupState :=
  let tDate := getReportingDateString dparse t.dateTime
  match st.current with
  | none => { st with current := some (appendTx (emptyGroup tDate) t) }
  | some g =>
    if g.date ≠ tDate then
      { done := st.done ++ [g], current := some (appendTx (emptyGroup tDate) t) }
    else
      { st with current := some (appendTx g t) }

/-- groupTransactionsByDate: one pass over the (already sorted) list,
then emit the trailing group. -/
def groupTransactionsByDate (dparse : String → JSDate)
    (transactions : List Transaction) : List DailyGroup :=
  let st := transactions.foldl (groupStep dparse) ⟨[], none⟩
  match st.current with
  | some g => st.done ++ [g]
  | none => st.done

/-! CSV ingestion (csvProcessor.ts, parseShopifyCSV / parsePaypalCSV) -/

/-- One parsed CSV record: header-labelled fields in column order, as
produced by Papa.parse with header: true. -/
abbrev Row := List (String × String)

/-- JS property access row[k]: undefined (none) when the key is absent. -/
def rowGet (row : Row) (k : String) : Option String :=
  (row.find? (fun p => p.1 == k)).map (fun p => p.2)

/-- Truthiness filter for string values: undefined and "" are falsy. -/
def truthy (v : Option String) : Option String :=
  match v with
  | some s => if s = "" then none else some s
  | none => none

/-- A chain of JS || lookups over candidate field names, ending in a
default value. -/
def firstTruthy (row : Row) (keys : List String) (dflt : String) : String :=
  match keys with
  | [] => dflt
  | k :: ks =>
    match truthy (rowGet row k) with
    | some v => v
    | none => firstTruthy row ks dflt

/-- The same chain without a default, as an optional value. -/
def firstTruthyOpt (row : Row) (keys : List String) : Option String :=
  match keys with
  | [] => none
  | k :: ks =>
    match truthy (rowGet row k) with
    | some v => some v
    | none => firstTruthyOpt row ks

/-- Date extraction chain of parseShopifyCSV, including the fall-back to
the row's first column (keys.length > 0 ? row[keys[0]] : null). -/
def shopifyDateValue (row : Row) : Option String :=
  match firstTruthyOpt row ["Created at", "Date", "Processed at", "Occurred at", "Day"] with
  | some v => some v
  | none => truthy (row.head?.map (fun p => p.2))

/-- Amount cell of a Shopify row after the numeric cleanup; the row is
accepted exactly when this is not NaN. -/
def shopifyAmount (row : Row) : QNum :=
  jsParseFloat (stripNonNumeric (firstTruthy row ["Amount", "Total"] "0"))

/-- Process one Shopify CSV row given the running entry counter,
returning the accepted transaction if any (nowIso stands for the
new Date().toISOString() fall-back timestamp). -/
def shopifyRowTx (nowIso : String) (counter : ℕ) (fileName : String)
    (row : Row) : Option Transaction :=
  let dateTime := (shopifyDateValue row).getD nowIso
  let orderId := firstTruthy row ["Name", "Order", "Order ID", "ID"]
    ("Line-" ++ Nat.repr counter)
  let amount := shopifyAmount row
  let fee := jsParseFloat (stripNonNumeric
    (firstTruthy row ["Fee", "Fees", "Transaction Fee"] "0"))
  let net0 := jsParseFloat (stripNonNumeric
    (firstTruthy row ["Net", "Net Amount"] "0"))
  let net := if net0 = some 0 ∧ (amount ≠ some 0 ∨ fee ≠ some 0) then
    centAdd amount fee else net0
  match amount with
  | none => none
  | some a =>
    some
      { id := orderId ++ "-" ++ Nat.repr counter
        orderNumber := orderId
        dateTime := dateTime
        customerName := firstTruthy row ["Billing Name", "Customer", "Source"]
          "Internal/Guest"
        amount := some a
        fee := fee
        net := net
        type' := firstTruthy row ["Status", "Financial Status", "Type"] "Unknown"
        cardBrand := firstTruthy row ["Card Brand", "Brand", "Payment Method", "Card"]
          "N/A"
        currency := firstTruthy row ["Currency"] "USD"
        sourceFile := fileName }

/-- Fold one file's rows into the shared transaction buffer, threading
the run-global entry counter. -/
def shopifyFoldRow (nowIso : String) (fileName : String)
    (st : List Transaction × ℕ) (row : Row) : List Transaction × ℕ :=
  match shopifyRowTx nowIso st.2 fileName row with
  | some t => (st.1 ++ [t], st.2 + 1)
  | none => st

/-- All accepted Shopify transactions of a batch of files, in emission
order (the model fixes the concurrent completion order to file order;
the result is sorted afterwards anyway). -/
def shopifyTransactions (nowIso : String) (files : List (String × List Row)) :
    List Transaction :=
  (files.foldl
    (fun st f => f.2.foldl (shopifyFoldRow nowIso f.1) st) ([], 0)).1

/-- Sort transactions newest first: the comparator
(a, b) => dateB.getTime() - dateA.getTime(), applied by a stable sort
as Array.prototype.sort is; for this total preorder every stable sort
computes the same list. -/
def sortTransactionsDesc (dparse : String → JSDate) (ts : List Transaction) :
    List Transaction :=
  ts.insertionSort (fun a b =>
    jsGetTime (dparse b.dateTime) ≤ jsGetTime (dparse a.dateTime))

/-- Date-range label from the grouped output; todayLocale stands for the
new Date().toLocaleDateString() default. -/
def dateRangeLabel (todayLocale : String) (dailyGroups : List DailyGroup) :
    String :=
  match dailyGroups.head?, dailyGroups.getLast? with
  | some newestG, some oldestG =>
    if oldestG.date = newestG.date then oldestG.date
    else oldestG.date ++ " - " ++ newestG.date
  | _, _ => todayLocale

/-- Assemble the ReportSummary from the sorted transaction list, shared
by both ingestion paths. -/
def summarize (dparse : String → JSDate) (todayLocale : String)
    (sorted : List Transaction) : ReportSummary :=
  let dailyGroups := groupTransactionsByDate dparse sorted
  { dateRange := dateRangeLabel todayLocale dailyGroups
    totalAmount := centTotal (sorted.map (fun t => t.amount))
    totalFees := centTotal (sorted.map (fun t => t.fee))
    totalNet := centTotal (sorted.map (fun t => t.net))
    transactionCount := sorted.length
    dailyGroups := dailyGroups
    allTransactions := sorted }

/-- parseShopifyCSV.  The promise rejects only on a file-system read
failure inside Papa.parse, which is outside this model; every batch of
parsed row data resolves, so the embedding always returns ok. -/
def parseShopifyCSV (dparse : String → JSDate) (nowIso todayLocale : String)
    (files : List (String × List Row)) : Except String ReportSummary :=
  .ok (summarize dparse todayLocale
    (sortTransactionsDesc dparse (shopifyTransactions nowIso files)))

/-- Currency cleanup helper of parsePaypalCSV: falsy cells count as 0,
other cells go through the numeric cleanup and parseFloat. -/
def cleanFloat (val : Option String) : QNum :=
  match truthy val with
  | none => some 0
  | some s => jsParseFloat (stripNonNumeric s)

/-- Process one PayPal CSV row: skip rows without date or time, skip
withdrawal types, skip all-zero summary rows. -/
def paypalRowTx (counter : ℕ) (fileName : String) (row : Row) :
    Option Transaction :=
  match truthy (rowGet row "Date"), truthy (rowGet row "Time") with
  | some dateStr, some timeStr =>
    let type' := firstTruthy row ["Type"] "Unknown"
    if type' = "General Withdrawal" ∨ type' = "User Initiated Withdrawal" then
      none
    else
      let amount := cleanFloat (rowGet row "Gross")
      let fee := cleanFloat (rowGet row "Fee")
      let net := cleanFloat (rowGet row "Net")
      if amount = some 0 ∧ fee = some 0 ∧ net = some 0 then none
      else
        let orderId := firstTruthy row ["Transaction ID"]
          ("PP-" ++ Nat.repr counter)
        some
          { id := orderId ++ "-" ++ Nat.repr counter
            orderNumber := orderId
            dateTime := dateStr ++ " " ++ timeStr
            customerName := firstTruthy row ["Name"] "Unknown"
            amount := amount
            fee := fee
            net := net
            type' := type'
            cardBrand := "PayPal"
            currency := firstTruthy row ["Currency"] "USD"
            sourceFile := fileName }
  | _, _ => none

/-- Fold one PayPal row into the shared buffer with the global counter. -/
def paypalFoldRow (fileName : String) (st : List Transaction × ℕ)
    (row : Row) : List Transaction × ℕ :=
  match paypalRowTx st.2 fileName row with
  | some t => (st.1 ++ [t], st.2 + 1)
  | none => st

/-- All accepted PayPal transactions of a batch of files. -/
def paypalTransactions (files : List (String × List Row)) :
    List Transaction :=
  (files.foldl (fun st f => f.2.foldl (paypalFoldRow f.1) st) ([], 0)).1

/-- parsePaypalCSV; as with parseShopifyCSV the embedding always
returns ok, the source having no rejection path for parsed row data. -/
def parsePaypalCSV (dparse : String → JSDate) (todayLocale : String)
    (files : List (String × List Row)) : Except String ReportSummary :=
  .ok (summarize dparse todayLocale
    (sortTransactionsDesc dparse (paypalTransactions files)))

/-! Legacy IIF converter (ConverterService) -/

/-- Output row shape (interface QBOJournalEntry).  Optional TS fields
(DueDate, LineAmount, BillNo, Supplier) are modelled as strings that GL
rows leave empty, matching the val || behaviour of every consumer. -/
structure QBORow where
  JournalNo : String
  JournalDate : String
  DueDate : String := ""
  Description : String
  Account : String
  Debit : String
  Credit : String
  Name : String
  LineAmount : String := ""
  BillNo : String := ""
  Supplier : String := ""
deriving DecidableEq, Repr

/-- Conversion mode: General Ledger or Accounts Payable. -/
inductive ConversionMode where
  | GL
  | AP
deriving DecidableEq, Repr

/-- Split the input into lines at /\r?\n/. -/
def splitLines (s : String) : List String :=
  (splitOnChar '\n' s).map (fun l =>
    match l.data.getLast? with
    | some '\r' => ⟨l.data.dropLast⟩
    | _ => l)

/-- Insertion-ordered object update: an existing key keeps its position
and takes the new value, a new key is appended. -/
def upsertNat (m : List (String × ℕ)) (k : String) (v : ℕ) :
    List (String × ℕ) :=
  if m.any (fun p => p.1 == k) then
    m.map (fun p => if p.1 == k then (p.1, v) else p)
  else m ++ [(k, v)]

/-- headers.forEach((h, i) => headerMap[h] = i) on a declaration line. -/
def buildHeaderMap (line : String) : List (String × ℕ) :=
  (splitOnChar '\t' (jsTrim line)).enum.foldl (fun m p => upsertNat m p.2 p.1) []

/-- Column lookup in an insertion-ordered header map. -/
def headerIdx (m : List (String × ℕ)) (k : String) : Option ℕ :=
  (m.find? (fun p => p.1 == k)).map (fun p => p.2)

/-- getVal: the cell at the column declared for colName, or "" when the
column is undeclared or past the end of the line. -/
def getVal (parts : List String) (m : List (String × ℕ)) (colName : String) :
    String :=
  match headerIdx m colName with
  | some idx => parts.getD idx ""
  | none => ""

/-- Static GL account override table, in source order. -/
def glAccountOverrides : List (String × String) :=
  [("0-115-0", "0-115-0 INVENTORY - PARTS"),
   ("0-119-0", "0-119-0 OTHER CC CLEARING"),
   ("0-121-0", "0-121-0 UNDEPOSITED FUNDS"),
   ("WEB CC", "0-122-0 WEB CC"),
   ("0-131-0", "0-131-0 TRANSFER CLEARING"),
   ("0-202-0", "0-202-0 ACCOUNTS PAYABLE CLEARING"),
   ("0-203-0", "0-203-0 SALES TAX PAYABLE"),
   ("0-251-0", "0-251-0 CUSTOMER DEPOSITS"),
   ("0-310-0", "0-310-0 INTERFACE CORRECTION ACCT"),
   ("0-401-0", "0-401-0 SALES"),
   ("0-405-0", "0-405-0 SHIPPING & HANDLING FEES"),
   ("0-490-0", "0-490-0 SALES RETURNS AND ALLOWANCES"),
   ("0-501-0", "0-501-0 COST OF GOODS SOLD")]

/-- Static AP account override table, in source order. -/
def apAccountOverrides : List (String × String) :=
  [("0-201-0", "0-201-0 ACCOUNTS PAYABLE"),
   ("0-202-0", "0-202-0 ACCOUNTS PAYABLE CLEARING"),
   ("0-682-0", "0-682-0 SHIPPING EXPENSE")]

/-- overrides[k] ?? k: exact-key lookup with pass-through fallback. -/
def lookupOverride (tbl : List (String × String)) (k : String) : String :=
  match tbl.find? (fun p => p.1 == k) with
  | some p => p.2
  | none => k

/-- parseAmount: split a signed amount string into debit (positive) or
credit (absolute value of negative) strings, two decimals; an
unparsable amount counts as 0 and leaves both sides empty. -/
def parseAmount (amountStr : String) : String × String :=
  let amountFloat : ℚ := (jsParseFloat amountStr).getD 0
  if 0 < amountFloat then (jsToFixed2 amountFloat, "")
  else if amountFloat < 0 then ("", jsToFixed2 (jsAbs amountFloat))
  else ("", "")

/-- The derived CPIIF journal number: CPIIF-MMDDYY when the date has
three slash-separated parts, else CPIIF- plus the date with the
slashes stripped. -/
def cpiifJournalNo (rawDate : String) : String :=
  match splitOnChar '/' rawDate with
  | [mm, dd, yyyy] => "CPIIF-" ++ mm ++ dd ++ lastTwo yyyy
  | _ => "CPIIF-" ++ ⟨rawDate.data.filter (fun c => !(c == '/'))⟩

/-- One GL output row from an SPL data line under a header map. -/
def mkGLRow (headerMap : List (String × ℕ)) (line : String) : QBORow :=
  let parts := splitOnChar '\t' (jsTrim line)
  let rawDocNum := getVal parts headerMap "DOCNUM"
  let rawDate := getVal parts headerMap "DATE"
  let rawMemo := getVal parts headerMap "MEMO"
  let rawAccnt := getVal parts headerMap "ACCNT"
  let rawAmount := getVal parts headerMap "AMOUNT"
  let ds := parseAmount rawAmount
  { JournalNo := cpiifJournalNo rawDate
    JournalDate := rawDate
    Description :=
      if rawMemo ≠ "" then rawMemo ++ " (Ref: " ++ rawDocNum ++ ")"
      else "(Ref: " ++ rawDocNum ++ ")"
    Account := lookupOverride glAccountOverrides rawAccnt
    Debit := ds.1
    Credit := ds.2
    Name := getVal parts headerMap "NAME" }

/-- convertGL on the line list: the first !SPL declaration fixes the
header map for every SPL data line; without one the conversion fails. -/
def convertGLLines (lines : List String) : Except String (List QBORow) :=
  let headerMap :=
    match lines.find? (fun l => jsStartsWith (jsTrim l) "!SPL") with
    | some l => buildHeaderMap l
    | none => []
  if headerMap.isEmpty then
    .error "Invalid IIF File: Could not find '!SPL' header row definition."
  else
    .ok (((lines.filter (fun l => jsStartsWith l "SPL")).map
      (mkGLRow headerMap)).insertionSort
        (fun a b => strLeB a.JournalNo b.JournalNo = true))

/-- convertGL on the raw document text. -/
def convertGL (iifString : String) : Except String (List QBORow) :=
  convertGLLines (splitLines iifString)

/-- Vendor context carried from a TRNS line to the following SPL lines. -/
structure BillsCtx where
  docNum : String := ""
  date : String := ""
  dueDate : String := ""
  name : String := ""
  terms : String := ""
deriving DecidableEq, Repr

/-- State of the single forward pass of convertBills. -/
structure BillsState where
  mapTrns : List (String × ℕ) := []
  mapSpl : List (String × ℕ) := []
  ctx : BillsCtx := {}
  rows : List QBORow := []
deriving Repr

/-- One AP output row from an SPL data line under the current SPL header
map and TRNS context. -/
def mkSplRow (m : List (String × ℕ)) (ctx : BillsCtx) (parts : List String) :
    QBORow :=
  let rawAccnt := getVal parts m "ACCNT"
  let amountVal : QNum := jsParseFloat (getVal parts m "AMOUNT")
  let lineAmount := jsToFixed2N amountVal
  { BillNo := ctx.docNum
    Supplier := ctx.name
    JournalDate := ctx.date
    DueDate := ctx.dueDate
    Account := lookupOverride apAccountOverrides rawAccnt
    Description := getVal parts m "MEMO"
    LineAmount := lineAmount
    JournalNo := ctx.docNum
    Name := ctx.name
    Debit :=
      match amountVal with
      | some q => if 0 < q then lineAmount else "0"
      | none => "0"
    Credit :=
      match amountVal with
      | some q => if q < 0 then jsToFixed2 (jsAbs q) else "0"
      | none => "0" }

/-- One line of the convertBills forward pass: redeclare a header map,
capture TRNS context, or emit an SPL row; data lines of a kind whose
header map is still empty are skipped, as is the 0-201-0 AP account. -/
def billsStep (st : BillsState) (line : String) : BillsState :=
  if jsStartsWith line "!TRNS" then { st with mapTrns := buildHeaderMap line }
  else if jsStartsWith line "!SPL" then { st with mapSpl := buildHeaderMap line }
  else if !(jsStartsWith line "TRNS") && !(jsStartsWith line "SPL") then st
  else
    let isTrns := jsStartsWith line "TRNS"
    let currentMap := if isTrns then st.mapTrns else st.mapSpl
    if currentMap.isEmpty then st
    else
      let parts := splitOnChar '\t' (jsTrim line)
      if isTrns then
        { st with ctx :=
          { docNum := getVal parts currentMap "DOCNUM"
            date := getVal parts currentMap "DATE"
            dueDate :=
              (let d := getVal parts currentMap "DUEDATE"
               if d ≠ "" then d else getVal parts currentMap "DUE DATE")
            name := getVal parts currentMap "NAME"
            terms := getVal parts currentMap "TERMS" } }
      else
        let rawAccnt := getVal parts currentMap "ACCNT"
        if rawAccnt = "0-201-0" then st
        else { st with rows := st.rows ++ [mkSplRow currentMap st.ctx parts] }

/-- Comparator of the final bills sort: date first, then bill number. -/
def billsLe (a b : QBORow) : Bool :=
  if strLtB a.JournalDate b.JournalDate then true
  else if strLtB b.JournalDate a.JournalDate then false
  else strLeB a.JournalNo b.JournalNo

/-- convertBills on the line list: the single forward pass, then the
stable (date, bill number) sort.  Note there is no failure path. -/
def convertBillsLines (lines : List String) : List QBORow :=
  (lines.foldl billsStep {}).rows.insertionSort (fun a b => billsLe a b = true)

/-- convertBills on the raw document text. -/
def convertBills (iifString : String) : List QBORow :=
  convertBillsLines (splitLines iifString)

/-- convert(iifString, mode): AP dispatches to convertBills (which never
fails), anything else to convertGL. -/
def convert (iifString : String) (mode : ConversionMode) :
    Except String (List QBORow) :=
  match mode with
  | .AP => .ok (convertBills iifString)
  | .GL => convertGL iifString

/-! QuickBooks sync layer (qbSync.service.cjs, class QBSyncService) -/

/-- One account returned by the Account query. -/
structure QBAccount where
  Name : String
  Id : String
deriving DecidableEq, Repr

/-- One vendor returned by the Vendor query. -/
structure QBVendor where
  DisplayName : String
  Id : String
deriving DecidableEq, Repr

/-- The service's mutable mapping state: name → external identifier. -/
structure QBState where
  accountMap : List (String × String) := []
  vendorMap : List (String × String) := []
deriving DecidableEq, Repr

/-- Insertion-ordered object update for string values. -/
def upsertStr (m : List (String × String)) (k v : String) :
    List (String × String) :=
  if m.any (fun p => p.1 == k) then
    m.map (fun p => if p.1 == k then (p.1, v) else p)
  else m ++ [(k, v)]

/-- Object lookup for string values. -/
def lookupStr (m : List (String × String)) (k : String) : Option String :=
  (m.find? (fun p => p.1 == k)).map (fun p => p.2)

/-- refreshMappings: write every fetched account and vendor into the
existing maps (the maps are not cleared first).  The two query results
are parameters; none models a response without a QueryResponse list. -/
def refreshMappings (st : QBState) (accResp : Option (List QBAccount))
    (venResp : Option (List QBVendor)) : QBState :=
  { accountMap :=
      match accResp with
      | some accs => accs.foldl (fun m a => upsertStr m (jsTrim a.Name) a.Id)
          st.accountMap
      | none => st.accountMap
    vendorMap :=
      match venResp with
      | some vens =>
          vens.foldl (fun m v => upsertStr m (jsTrim v.DisplayName) v.Id)
            st.vendorMap
      | none => st.vendorMap }

/-- findAccountId: exact match on the trimmed name when its value is
truthy, else the first key in insertion order overlapping the name as
a prefix either way (a falsy found key yields null). -/
def findAccountId (accountMap : List (String × String)) (name : String) :
    Option String :=
  let cleanName := jsTrim name
  match lookupStr accountMap cleanName with
  | some v =>
    if v = "" then findAccountIdOverlap accountMap cleanName
    else some v
  | none => findAccountIdOverlap accountMap cleanName
where
  /-- The partial-match arm: Object.keys(map).find(k =>
  k.startsWith(clean) || clean.startsWith(k)). -/
  findAccountIdOverlap (accountMap : List (String × String))
      (cleanName : String) : Option String :=
    match (accountMap.map (fun p => p.1)).find?
        (fun k => jsStartsWith k cleanName || jsStartsWith cleanName k) with
    | some k => if k = "" then none else lookupStr accountMap k
    | none => none

/-- formatDate: MM/DD/YY[YY] to ISO YYYY-MM-DD, two-digit years in the
2000s; todayIso stands for the new Date() default for empty input, and
any other shape passes through. -/
def formatDate (todayIso : String) (dateStr : String) : String :=
  if dateStr = "" then todayIso
  else
    match splitOnChar '/' dateStr with
    | [m, d, y] =>
      let y2 := if y.length = 2 then "20" ++ y else y
      y2 ++ "-" ++ padStart2 m ++ "-" ++ padStart2 d
    | _ => dateStr
where
  /-- padStart(2, '0'). -/
  padStart2 (s : String) : String :=
    if 2 ≤ s.length then s else if s.length = 1 then "0" ++ s else "00"

/-- A journal-entry line of the remote payload. -/
structure JELine where
  Description : String
  Amount : QNum
  PostingType : String
  AccountRef : String
deriving DecidableEq, Repr

/-- A journal-entry document payload. -/
structure JEPayload where
  DocNumber : String
  TxnDate : String
  Line : List JELine
deriving DecidableEq, Repr

/-- An expense line of a bill payload. -/
structure BillLine where
  Description : String
  Amount : QNum
  AccountRef : String
deriving DecidableEq, Repr

/-- A bill document payload. -/
structure BillPayload where
  DocNumber : String
  TxnDate : String
  DueDate : String
  VendorRef : String
  Line : List BillLine
deriving DecidableEq, Repr

/-- Per-batch sync outcome counters and error log. -/
structure SyncResults where
  success : ℕ := 0
  failed : ℕ := 0
  errors : List String := []
deriving DecidableEq, Repr

/-- JS falsiness of an optional identifier: null or "". -/
def idFalsy (v : Option String) : Bool :=
  match v with
  | none => true
  | some s => s = ""

/-- Group rows by a document key, JS-object style: first occurrence
fixes the group's position, later rows append to their group. -/
def groupByKey (key : QBORow → String) (entries : List QBORow) :
    List (String × List QBORow) :=
  entries.foldl
    (fun gs e =>
      if gs.any (fun g => g.1 == key e) then
        gs.map (fun g => if g.1 == key e then (g.1, g.2 ++ [e]) else g)
      else gs ++ [(key e, [e])])
    []

/-- Build one journal line, throwing when the account is unresolvable. -/
def buildJELine (accountMap : List (String × String)) (row : QBORow) :
    Except String JELine :=
  let amount := jsParseFloat (if row.Debit ≠ "" then row.Debit else row.Credit)
  let accountId := findAccountId accountMap row.Account
  if idFalsy accountId then
    .error ("Account \"" ++ row.Account ++ "\" not found in QuickBooks.")
  else
    .ok
      { Description := row.Description
        Amount := amount
        PostingType :=
          if row.Debit ≠ "0" ∧ row.Debit ≠ "" then "Debit" else "Credit"
        AccountRef := accountId.getD "" }

/-- Build one journal-entry payload for a document group. -/
def buildJEPayload (accountMap : List (String × String)) (todayIso : String)
    (journalNo : String) (rows : List QBORow) : Except String JEPayload := do
  let lines ← rows.mapM (buildJELine accountMap)
  .ok
    { DocNumber := journalNo
      TxnDate := formatDate todayIso ((rows.head?.map
        (fun r => r.JournalDate)).getD "")
      Line := lines }

/-- syncJournalEntries: group by JournalNo and submit each group through
the remote API oracle, recording one error per failed group and never
aborting the iteration. -/
def syncJournalEntries (api : JEPayload → Except String Unit)
    (todayIso : String) (accountMap : List (String × String))
    (entries : List QBORow) : SyncResults :=
  (groupByKey (fun e => e.JournalNo) entries).foldl
    (fun results g =>
      match (do
          let payload ← buildJEPayload accountMap todayIso g.1 g.2
          api payload) with
      | .ok _ => { results with success := results.success + 1 }
      | .error e =>
        { results with
          failed := results.failed + 1
          errors := results.errors ++ ["Journal " ++ g.1 ++ ": " ++ e] })
    {}

/-- Build one bill expense line, throwing on an unresolvable account. -/
def buildBillLine (accountMap : List (String × String)) (row : QBORow) :
    Except String BillLine :=
  let accountId := findAccountId accountMap row.Account
  if idFalsy accountId then
    .error ("Account \"" ++ row.Account ++ "\" not found in QuickBooks.")
  else
    .ok
      { Description := row.Description
        Amount := jsParseFloat row.LineAmount
        AccountRef := accountId.getD "" }

/-- Build one bill payload for a document group, resolving the vendor
from the group's first row. -/
def buildBillPayload (accountMap vendorMap : List (String × String))
    (todayIso : String) (billNo : String) (rows : List QBORow) :
    Except String BillPayload := do
  let supplierName := (rows.head?.map (fun r => r.Supplier)).getD ""
  let vendorId := lookupStr vendorMap (jsTrim supplierName)
  if idFalsy vendorId then
    .error ("Vendor \"" ++ supplierName ++ "\" not found in QuickBooks.")
  else do
    let lines ← rows.mapM (buildBillLine accountMap)
    .ok
      { DocNumber := billNo
        TxnDate := formatDate todayIso ((rows.head?.map
          (fun r => r.JournalDate)).getD "")
        DueDate := formatDate todayIso ((rows.head?.map
          (fun r => r.DueDate)).getD "")
        VendorRef := vendorId.getD ""
        Line := lines }

/-- syncBills: group by BillNo and submit each group independently. -/
def syncBills (api : BillPayload → Except String Unit) (todayIso : String)
    (accountMap vendorMap : List (String × String)) (entries : List QBORow) :
    SyncResults :=
  (groupByKey (fun e => e.BillNo) entries).foldl
    (fun results g =>
      match (do
          let payload ← buildBillPayload accountMap vendorMap todayIso g.1 g.2
          api payload) with
      | .ok _ => { results with success := results.success + 1 }
      | .error e =>
        { results with
          failed := results.failed + 1
          errors := results.errors ++ ["Bill " ++ g.1 ++ ": " ++ e] })
    {}

/-! Formalization vocabulary used by the theorems -/

/-- Local time of day in seconds, for stating the 16:00 cutoff. -/
def secondsOfDay (d : JSDate) : ℕ :=
  d.hour * 3600 + d.minute * 60 + d.second

/-- The DailyGroup bookkeeping invariant: each subtotal equals the
cent-safe sum over exactly the contained transactions, and the count
equals the number of contained transactions. -/
def groupInvariant (g : DailyGroup) : Prop :=
  g.subtotal = centSum (g.transactions.map (fun t => t.amount)) ∧
  g.subtotalFees = centSum (g.transactions.map (fun t => t.fee)) ∧
  g.subtotalNet = centSum (g.transactions.map (fun t => t.net)) ∧
  g.count = g.transactions.length

instance (g : DailyGroup) : Decidable (groupInvariant g) := by
  unfold groupInvariant
  infer_instance

/-- Decidable equality on Except results, for evaluating the converter
contracts on concrete documents. -/
instance {e a : Type} [DecidableEq e] [DecidableEq a] :
    DecidableEq (Except e a) := fun x y =>
  match x, y with
  | .ok u, .ok v =>
    if h : u = v then .isTrue (by rw [h]) else .isFalse (by simp [h])
  | .error u, .error v =>
    if h : u = v then .isTrue (by rw [h]) else .isFalse (by simp [h])
  | .ok _, .error _ => .isFalse (by simp)
  | .error _, .ok _ => .isFalse (by simp)

/-! Bridge lemmas for the rational arithmetic -/

theorem num_eq_mul_den (q : ℚ) : (q.num : ℚ) = q * (q.den : ℚ) := by
  have hden : ((q.den : ℚ)) ≠ 0 := by
    exact_mod_cast q.den_nz
  exact (div_eq_iff hden).mp (Rat.num_div_den q)

theorem jsRound_eq_floor (q : ℚ) : jsRound q = ⌊q + 1 / 2⌋ := by
  have hden : (0 : ℚ) < (q.den : ℚ) := by
    exact_mod_cast q.den_pos
  have key : ((2 * q.num + (q.den : ℤ) : ℤ) : ℚ) / ((2 * q.den : ℕ) : ℚ) = q + 1 / 2 := by
    rw [div_eq_iff (by positivity)]
    push_cast
    rw [num_eq_mul_den]
    ring
  have h2 : (2 * (q.den : ℤ)) = ((2 * q.den : ℕ) : ℤ) := by push_cast; ring
  rw [jsRound, h2,
    ← Rat.floor_intCast_div_natCast (2 * q.num + (q.den : ℤ)) (2 * q.den), key]

theorem qscale100_eq (q : ℚ) : qscale100 q = q * 100 := by
  have hden : ((q.den : ℚ)) ≠ 0 := by
    exact_mod_cast q.den_nz
  rw [qscale100, Rat.mkRat_eq_div]
  rw [div_eq_iff hden]
  push_cast
  rw [num_eq_mul_den]
  ring

theorem ofCents_eq (k : ℤ) : ofCents k = (k : ℚ) / 100 := by
  rw [ofCents, Rat.mkRat_eq_div]
  norm_num

theorem roundCents_eq_floor (q : ℚ) : roundCents q = ⌊q * 100 + 1 / 2⌋ := by
  rw [roundCents, jsRound_eq_floor, qscale100_eq]

theorem roundCents_ofCents (k : ℤ) : roundCents (ofCents k) = k := by
  rw [roundCents_eq_floor, ofCents_eq]
  have h100 : ((100 : ℚ)) ≠ 0 := by norm_num
  have : (k : ℚ) / 100 * 100 + 1 / 2 = (k : ℚ) + 1 / 2 := by
    field_simp
  rw [this, Int.floor_int_add]
  norm_num

theorem jsAbs_eq (q : ℚ) : jsAbs q = |q| := by
  rcases le_or_lt 0 q with h | h
  · have hn : 0 ≤ q.num := Rat.num_nonneg.mpr h
    rw [jsAbs, abs_of_nonneg h, Int.natAbs_of_nonneg hn, Rat.mkRat_self]
  · have hn : q.num ≤ 0 := le_of_lt (Rat.num_neg.mpr h)
    rw [jsAbs, abs_of_neg h, Int.ofNat_natAbs_of_nonpos hn, Rat.mkRat_eq_div]
    push_cast
    rw [neg_div, Rat.num_div_den]

/-! Cent-safe sum and grouping lemmas -/

theorem centSum_append_one (l : List QNum) (x : QNum) :
    centSum (l ++ [x]) = centAdd (centSum l) x := by
  simp [centSum, List.foldl_append]

theorem groupInvariant_emptyGroup (d : String) :
    groupInvariant (emptyGroup d) := by
  refine ⟨rfl, rfl, rfl, rfl⟩

theorem groupInvariant_appendTx (g : DailyGroup) (t : Transaction)
    (h : groupInvariant g) : groupInvariant (appendTx g t) := by
  obtain ⟨h1, h2, h3, h4⟩ := h
  refine ⟨?_, ?_, ?_, ?_⟩ <;>
    simp [appendTx, centSum_append_one, h1, h2, h3, h4]

theorem groupStep_inv (dparse : String → JSDate) (st : GroupState)
    (t : Transaction)
    (h1 : ∀ g ∈ st.done, groupInvariant g)
    (h2 : ∀ g, st.current = some g → groupInvariant g) :
    (∀ g ∈ (groupStep dparse st t).done, groupInvariant g) ∧
    (∀ g, (groupStep dparse st t).current = some g → groupInvariant g) := by
  unfold groupStep
  cases hc : st.current with
  | none =>
    refine ⟨by simpa using h1, ?_⟩
    intro g hg
    simp at hg
    subst hg
    exact groupInvariant_appendTx _ _ (groupInvariant_emptyGroup _)
  | some g0 =>
    by_cases hd : g0.date = getReportingDateString dparse t.dateTime
    · refine ⟨?_, ?_⟩
      · intro g hg
        simp [hd] at hg
        exact h1 g hg
      · intro g hg
        simp [hd] at hg
        subst hg
        exact groupInvariant_appendTx _ _ (h2 g0 hc)
    · refine ⟨?_, ?_⟩
      · intro g hg
        simp [hd] at hg
        rcases hg with hg | hg
        · exact h1 g hg
        · subst hg
          exact h2 _ hc
      · intro g hg
        simp [hd] at hg
        subst hg
        exact groupInvariant_appendTx _ _ (groupInvariant_emptyGroup _)

theorem groupFold_inv (dparse : String → JSDate) (ts : List Transaction) :
    ∀ st : GroupState,
      (∀ g ∈ st.done, groupInvariant g) →
      (∀ g, st.current = some g → groupInvariant g) →
      (∀ g ∈ (ts.foldl (groupStep dparse) st).done, groupInvariant g) ∧
      (∀ g, (ts.foldl (groupStep dparse) st).current = some g →
        groupInvariant g) := by
  induction ts with
  | nil => intro st h1 h2; exact ⟨h1, h2⟩
  | cons t ts ih =>
    intro st h1 h2
    have h := groupStep_inv dparse st t h1 h2
    exact ih (groupStep dparse st t) h.1 h.2

/-- C9: every DailyGroup produced by the grouper has subtotal, fee and
net fields equal to the cent-safe sums over exactly its contained
transactions, and count equal to their number; moreover the invariant
is preserved by every incremental append step. -/
theorem C9_group_subtotal_invariant (dparse : String → JSDate)
    (ts : List Transaction) (g : DailyGroup)
    (hg : g ∈ groupTransactionsByDate dparse ts) :
    groupInvariant g ∧
      ∀ g' t, groupInvariant g' → groupInvariant (appendTx g' t) := by
  refine ⟨?_, fun g' t h => groupInvariant_appendTx g' t h⟩
  simp only [groupTransactionsByDate] at hg
  have h := groupFold_inv dparse ts ⟨[], none⟩ (by simp) (by simp)
  split at hg
  next gl hcur =>
    rcases List.mem_append.mp hg with hg2 | hg2
    · exact h.1 g hg2
    · simp at hg2
      subst hg2
      exact h.2 g hcur
  next hcur =>
    exact h.1 g hg

theorem C9_witness :
    groupInvariant (appendTx (emptyGroup "1/1/2024")
      ⟨"A-0", "A", "x", "c", some 0, some 0, some 0, "s", "b", "USD", "f"⟩) :=
  (C9_group_subtotal_invariant (fun _ => ⟨2024, 1, 1, 0, 0, 0⟩)
    [⟨"A-0", "A", "x", "c", some 0, some 0, some 0, "s", "b", "USD", "f"⟩]
    (appendTx (emptyGroup "1/1/2024")
      ⟨"A-0", "A", "x", "c", some 0, some 0, some 0, "s", "b", "USD", "f"⟩)
    (by decide)).1

/-- C2: the reporting date equals the transaction's calendar date when
its local time of day is strictly before 16:00:00, and the next
calendar date when it is at or after 16:00:00. -/
theorem C2_reporting_date_cutoff (dparse : String → JSDate) (s : String)
    (hm : (dparse s).minute < 60) (hs : (dparse s).second < 60) :
    (secondsOfDay (dparse s) < 57600 →
      getReportingDateString dparse s = localeDateString (dparse s)) ∧
    (57600 ≤ secondsOfDay (dparse s) →
      getReportingDateString dparse s =
        localeDateString (nextCalendarDay (dparse s))) := by
  unfold getReportingDateString secondsOfDay at *
  constructor
  · intro hlt
    have hh : ¬ 16 ≤ (dparse s).hour := by omega
    simp [hh]
  · intro hge
    have hh : 16 ≤ (dparse s).hour := by omega
    simp [hh]

theorem C2_witness :
    (0 : ℕ) < 60 ∧ (59 : ℕ) < 60 ∧
    getReportingDateString (fun _ => ⟨2024, 1, 5, 16, 0, 0⟩) "t" = "1/6/2024" ∧
    getReportingDateString (fun _ => ⟨2024, 1, 5, 15, 59, 59⟩) "t" = "1/5/2024" := by
  refine ⟨by decide, by decide, ?_, ?_⟩
  · have h := (C2_reporting_date_cutoff (fun _ => ⟨2024, 1, 5, 16, 0, 0⟩) "t"
      (by decide) (by decide)).2 (by decide)
    rw [h]
    decide
  · have h := (C2_reporting_date_cutoff (fun _ => ⟨2024, 1, 5, 15, 59, 59⟩) "t"
      (by decide) (by decide)).1 (by decide)
    rw [h]
    decide

/-! Debit/credit split lemmas -/

theorem jsToFixed2_ne_empty (q : ℚ) : jsToFixed2 q ≠ "" := by
  intro h
  have hlen := congrArg String.length h
  simp only [jsToFixed2, String.length_append] at hlen
  have h1 : (".").length = 1 := rfl
  have h0 : ("" : String).length = 0 := rfl
  rw [h1, h0] at hlen
  omega

theorem parseAmount_not_both (s : String) :
    (parseAmount s).1 = "" ∨ (parseAmount s).2 = "" := by
  by_cases h1 : (0 : ℚ) < (jsParseFloat s).getD 0
  · right
    simp [parseAmount, h1]
  · by_cases h2 : ((jsParseFloat s).getD 0 : ℚ) < 0
    · left
      simp [parseAmount, h1, h2]
    · left
      simp [parseAmount, h1, h2]

/-- C8: a strictly positive GL amount yields a non-empty two-decimal
Debit and an empty Credit, a strictly negative one an empty Debit and a
Credit holding the absolute value to two decimals, and no row produced
by convertGL carries both a non-empty Debit and a non-empty Credit. -/
theorem C8_debit_credit_split (s : String) (a : ℚ)
    (h : jsParseFloat s = some a) :
    (0 < a →
      (parseAmount s).1 = jsToFixed2 a ∧ (parseAmount s).1 ≠ "" ∧
      (parseAmount s).2 = "") ∧
    (a < 0 →
      (parseAmount s).1 = "" ∧ (parseAmount s).2 = jsToFixed2 |a| ∧
      (parseAmount s).2 ≠ "") ∧
    (∀ lines rows r, convertGLLines lines = .ok rows → r ∈ rows →
      ¬((r.Debit ≠ "" ∧ r.Credit ≠ ""))) := by
  refine ⟨?_, ?_, ?_⟩
  · intro hpos
    have hd : (parseAmount s).1 = jsToFixed2 a := by
      simp [parseAmount, h, hpos]
    refine ⟨hd, ?_, by simp [parseAmount, h, hpos]⟩
    rw [hd]
    exact jsToFixed2_ne_empty a
  · intro hneg
    have hnp : ¬ 0 < a := not_lt_of_gt hneg
    have hd : (parseAmount s).2 = jsToFixed2 |a| := by
      simp [parseAmount, h, hnp, hneg, jsAbs_eq]
    refine ⟨by simp [parseAmount, h, hnp, hneg], hd, ?_⟩
    rw [hd]
    exact jsToFixed2_ne_empty _
  · intro lines rows r hok hr
    simp only [convertGLLines] at hok
    split at hok
    · simp at hok
    · have hrows := Except.ok.inj hok
      rw [← hrows] at hr
      obtain ⟨l, _, hl⟩ := List.mem_map.mp ((List.mem_insertionSort _).mp hr)
      intro hboth
      rw [← hl] at hboth
      simp only [mkGLRow] at hboth
      rcases parseAmount_not_both (getVal (splitOnChar '\t' (jsTrim l))
          (match lines.find? (fun l => jsStartsWith (jsTrim l) "!SPL") with
            | some l => buildHeaderMap l
            | none => []) "AMOUNT") with hs | hs
      · exact hboth.1 hs
      · exact hboth.2 hs

theorem C8_witness :
    jsParseFloat "5" = some 5 ∧ (0 : ℚ) < 5 ∧
    (parseAmount "5").1 = jsToFixed2 5 ∧ (parseAmount "5").1 ≠ "" ∧
    (parseAmount "5").2 = "" ∧
    jsParseFloat "-3.125" = some (mkRat (-25) 8) ∧ (mkRat (-25) 8 : ℚ) < 0 ∧
    (parseAmount "-3.125").1 = "" ∧
    (parseAmount "-3.125").2 = jsToFixed2 |(mkRat (-25) 8 : ℚ)| := by
  have h1 := (C8_debit_credit_split "5" 5 (by decide)).1 (by decide)
  have h2 := ((C8_debit_credit_split "-3.125" (mkRat (-25) 8) (by decide)).2.1
    (by decide))
  exact ⟨by decide, by decide, h1.1, h1.2.1, h1.2.2, by decide, by decide,
    h2.1, h2.2.1⟩

/-- C10: an SPL detail line whose amount cell does not parse as a number
is not dropped in AP mode: the pass still emits its row, with LineAmount
"NaN" and both legacy Debit and Credit equal to "0". -/
theorem C10_nan_amount_row (pre : List String) (line : String)
    (h1 : jsStartsWith line "!TRNS" = false)
    (h2 : jsStartsWith line "!SPL" = false)
    (h3 : jsStartsWith line "TRNS" = false)
    (h4 : jsStartsWith line "SPL" = true)
    (h5 : (pre.foldl billsStep {}).mapSpl.isEmpty = false)
    (h6 : getVal (splitOnChar '\t' (jsTrim line)) (pre.foldl billsStep {}).mapSpl
      "ACCNT" ≠ "0-201-0")
    (h7 : jsParseFloat (getVal (splitOnChar '\t' (jsTrim line))
      (pre.foldl billsStep {}).mapSpl "AMOUNT") = none) :
    mkSplRow (pre.foldl billsStep {}).mapSpl (pre.foldl billsStep {}).ctx
        (splitOnChar '\t' (jsTrim line)) ∈ convertBillsLines (pre ++ [line]) ∧
    (mkSplRow (pre.foldl billsStep {}).mapSpl (pre.foldl billsStep {}).ctx
      (splitOnChar '\t' (jsTrim line))).LineAmount = "NaN" ∧
    (mkSplRow (pre.foldl billsStep {}).mapSpl (pre.foldl billsStep {}).ctx
      (splitOnChar '\t' (jsTrim line))).Debit = "0" ∧
    (mkSplRow (pre.foldl billsStep {}).mapSpl (pre.foldl billsStep {}).ctx
      (splitOnChar '\t' (jsTrim line))).Credit = "0" := by
  refine ⟨?_, ?_, ?_, ?_⟩
  · unfold convertBillsLines
    rw [List.foldl_append]
    apply (List.mem_insertionSort _).mpr
    simp only [List.foldl_cons, List.foldl_nil]
    have hstep : (billsStep (pre.foldl billsStep {}) line).rows =
        (pre.foldl billsStep {}).rows ++
          [mkSplRow (pre.foldl billsStep {}).mapSpl
            (pre.foldl billsStep {}).ctx (splitOnChar '\t' (jsTrim line))] := by
      simp [billsStep, h1, h2, h3, h4, h5, h6]
    rw [hstep]
    simp
  · simp [mkSplRow, h7, jsToFixed2N]
  · simp [mkSplRow, h7]
  · simp [mkSplRow, h7]

theorem C10_witness :
    mkSplRow (["!SPL\tACCNT\tAMOUNT\tMEMO"].foldl billsStep {}).mapSpl
        (["!SPL\tACCNT\tAMOUNT\tMEMO"].foldl billsStep {}).ctx
        (splitOnChar '\t' (jsTrim "SPL\t0-555-0\t\tmystery")) ∈
      convertBillsLines ["!SPL\tACCNT\tAMOUNT\tMEMO", "SPL\t0-555-0\t\tmystery"] ∧
    (mkSplRow (["!SPL\tACCNT\tAMOUNT\tMEMO"].foldl billsStep {}).mapSpl
      (["!SPL\tACCNT\tAMOUNT\tMEMO"].foldl billsStep {}).ctx
      (splitOnChar '\t' (jsTrim "SPL\t0-555-0\t\tmystery"))).LineAmount = "NaN" ∧
    (mkSplRow (["!SPL\tACCNT\tAMOUNT\tMEMO"].foldl billsStep {}).mapSpl
      (["!SPL\tACCNT\tAMOUNT\tMEMO"].foldl billsStep {}).ctx
      (splitOnChar '\t' (jsTrim "SPL\t0-555-0\t\tmystery"))).Debit = "0" ∧
    (mkSplRow (["!SPL\tACCNT\tAMOUNT\tMEMO"].foldl billsStep {}).mapSpl
      (["!SPL\tACCNT\tAMOUNT\tMEMO"].foldl billsStep {}).ctx
      (splitOnChar '\t' (jsTrim "SPL\t0-555-0\t\tmystery"))).Credit = "0" :=
  C10_nan_amount_row ["!SPL\tACCNT\tAMOUNT\tMEMO"] "SPL\t0-555-0\t\tmystery"
    (by decide) (by decide) (by decide) (by decide) (by decide) (by decide)
    (by decide)

/-- C4 counterexample: an Accounts-Payable conversion of a document with
no header-declaration line at all does not fail with a FormatError; it
resolves with the empty row list. -/
theorem C4_counterexample :
    (∀ l ∈ splitLines "SPL\t0-682-0\t5.00",
      jsStartsWith (jsTrim l) "!SPL" = false ∧
      jsStartsWith l "!TRNS" = false ∧ jsStartsWith l "!SPL" = false) ∧
    convert "SPL\t0-682-0\t5.00" .AP = .ok [] := by
  decide

theorem billsStep_no_decl (st : BillsState) (l : String)
    (h1 : jsStartsWith l "!TRNS" = false)
    (h2 : jsStartsWith l "!SPL" = false)
    (hm1 : st.mapTrns = []) (hm2 : st.mapSpl = []) :
    billsStep st l = st := by
  unfold billsStep
  simp only [h1, h2, Bool.false_eq_true, if_false]
  cases hT : jsStartsWith l "TRNS" <;> cases hS : jsStartsWith l "SPL" <;>
    simp [hT, hS, hm1, hm2]

theorem billsFold_no_decl (lines : List String) :
    ∀ st : BillsState,
      (∀ l ∈ lines, jsStartsWith l "!TRNS" = false ∧
        jsStartsWith l "!SPL" = false) →
      st.mapTrns = [] → st.mapSpl = [] →
      lines.foldl billsStep st = st := by
  induction lines with
  | nil => intro st _ _ _; rfl
  | cons l ls ih =>
    intro st h hm1 hm2
    have hstep := billsStep_no_decl st l (h l (by simp)).1 (h l (by simp)).2
      hm1 hm2
    simp only [List.foldl_cons, hstep]
    exact ih st (fun x hx => h x (by simp [hx])) hm1 hm2

/-- C4 (amended): only General-Ledger mode fails with the FormatError
when no !SPL header-declaration line is present; Accounts-Payable mode
does not fail — with no declaration lines every data line is skipped
and it returns the empty row list. -/
theorem C4_gl_fails_ap_returns_empty :
    (∀ lines, lines.find? (fun l => jsStartsWith (jsTrim l) "!SPL") = none →
      convertGLLines lines =
        .error "Invalid IIF File: Could not find '!SPL' header row definition.") ∧
    (∀ lines,
      (∀ l ∈ lines, jsStartsWith l "!TRNS" = false ∧
        jsStartsWith l "!SPL" = false) →
      convertBillsLines lines = []) := by
  constructor
  · intro lines hfind
    simp [convertGLLines, hfind]
  · intro lines h
    unfold convertBillsLines
    rw [billsFold_no_decl lines {} h rfl rfl]
    rfl

theorem C4_witness :
    convertGLLines ["TRNS\tonly"] =
      .error "Invalid IIF File: Could not find '!SPL' header row definition." ∧
    convertBillsLines ["SPL\t0-682-0\t5.00"] = [] :=
  ⟨C4_gl_fails_ap_returns_empty.1 ["TRNS\tonly"] (by decide),
   C4_gl_fails_ap_returns_empty.2 ["SPL\t0-682-0\t5.00"] (by decide)⟩

/-! Header-map tracking lemmas for the AP pass -/

theorem upsertNat_ne_nil (m : List (String × ℕ)) (k : String) (v : ℕ) :
    upsertNat m k v ≠ [] := by
  unfold upsertNat
  split
  · intro hnil
    rename_i hany
    rw [List.map_eq_nil_iff.mp hnil] at hany
    simp at hany
  · simp

theorem foldl_upsertNat_ne_nil (es : List (ℕ × String)) :
    ∀ m : List (String × ℕ), m ≠ [] →
      es.foldl (fun m p => upsertNat m p.2 p.1) m ≠ [] := by
  induction es with
  | nil => intro m hm; exact hm
  | cons e es ih =>
    intro m _
    exact ih (upsertNat m e.2 e.1) (upsertNat_ne_nil m e.2 e.1)

theorem splitChar_ne_nil (c : Char) (l : List Char) : splitChar c l ≠ [] := by
  cases l with
  | nil => simp [splitChar]
  | cons a as =>
    unfold splitChar
    split
    · simp
    · split <;> simp

theorem buildHeaderMap_ne_nil (line : String) : buildHeaderMap line ≠ [] := by
  unfold buildHeaderMap
  have h := splitChar_ne_nil '\t' (jsTrim line).data
  rcases hsp : splitChar '\t' (jsTrim line).data with _ | ⟨x, xs⟩
  · exact absurd hsp h
  · simp only [splitOnChar, hsp, List.map_cons, List.enum_cons, List.foldl_cons]
    exact foldl_upsertNat_ne_nil _ _ (upsertNat_ne_nil [] _ _)

theorem billsStep_mapSpl (st : BillsState) (l : String)
    (h : jsStartsWith l "!SPL" = false) :
    (billsStep st l).mapSpl = st.mapSpl := by
  unfold billsStep
  split
  · rfl
  · split
    · simp_all
    · split
      · rfl
      · dsimp only
        repeat' split
        all_goals rfl

theorem billsFold_mapSpl (post : List String) :
    ∀ st : BillsState, (∀ l ∈ post, jsStartsWith l "!SPL" = false) →
      (post.foldl billsStep st).mapSpl = st.mapSpl := by
  induction post with
  | nil => intro st _; rfl
  | cons l ls ih =>
    intro st h
    rw [List.foldl_cons, ih (billsStep st l) (fun x hx => h x (by simp [hx]))]
    exact billsStep_mapSpl st l (h l (by simp))

theorem billsStep_spl_rows (st : BillsState) (line : String)
    (h1 : jsStartsWith line "!TRNS" = false)
    (h2 : jsStartsWith line "!SPL" = false)
    (h3 : jsStartsWith line "TRNS" = false)
    (h4 : jsStartsWith line "SPL" = true)
    (h5 : st.mapSpl.isEmpty = false)
    (h6 : getVal (splitOnChar '\t' (jsTrim line)) st.mapSpl "ACCNT" ≠
      "0-201-0") :
    (billsStep st line).rows =
      st.rows ++ [mkSplRow st.mapSpl st.ctx (splitOnChar '\t' (jsTrim line))] := by
  simp [billsStep, h1, h2, h3, h4, h5, h6]

/-- C5 counterexample: in GL mode a second !SPL declaration line does
not take effect.  With two declarations that swap the ACCNT and AMOUNT
columns, the data line after the redeclaration is still resolved with
the first declaration's positions (Account "0-115-0", overridden to the
catalog name), not the most recent one's (which would read "5"). -/
theorem C5_counterexample :
    convertGL ("!SPL\tACCNT\tAMOUNT\tDOCNUM\tDATE\tMEMO\tNAME\n" ++
        "!SPL\tAMOUNT\tACCNT\tDOCNUM\tDATE\tMEMO\tNAME\n" ++
        "SPL\t0-115-0\t5\tD1\t1/2/2024\tmemo1\tJoe") =
      .ok [mkGLRow
        (buildHeaderMap "!SPL\tACCNT\tAMOUNT\tDOCNUM\tDATE\tMEMO\tNAME")
        "SPL\t0-115-0\t5\tD1\t1/2/2024\tmemo1\tJoe"] ∧
    (mkGLRow (buildHeaderMap "!SPL\tACCNT\tAMOUNT\tDOCNUM\tDATE\tMEMO\tNAME")
      "SPL\t0-115-0\t5\tD1\t1/2/2024\tmemo1\tJoe").Account =
      "0-115-0 INVENTORY - PARTS" ∧
    (mkGLRow (buildHeaderMap "!SPL\tAMOUNT\tACCNT\tDOCNUM\tDATE\tMEMO\tNAME")
      "SPL\t0-115-0\t5\tD1\t1/2/2024\tmemo1\tJoe").Account = "5" ∧
    convertGL ("!SPL\tACCNT\tAMOUNT\tDOCNUM\tDATE\tMEMO\tNAME\n" ++
        "!SPL\tAMOUNT\tACCNT\tDOCNUM\tDATE\tMEMO\tNAME\n" ++
        "SPL\t0-115-0\t5\tD1\t1/2/2024\tmemo1\tJoe") ≠
      .ok [mkGLRow
        (buildHeaderMap "!SPL\tAMOUNT\tACCNT\tDOCNUM\tDATE\tMEMO\tNAME")
        "SPL\t0-115-0\t5\tD1\t1/2/2024\tmemo1\tJoe"] := by
  decide

/-- C5 (amended): redeclaration takes effect only in AP mode.  In AP
mode an SPL data line is resolved with the column positions of the most
recent preceding !SPL declaration; in GL mode every data line is
resolved with the first !SPL declaration's positions. -/
theorem C5_redeclaration (pre : List String) (decl : String)
    (post : List String) (line : String)
    (hd1 : jsStartsWith decl "!TRNS" = false)
    (hd2 : jsStartsWith decl "!SPL" = true)
    (hpost : ∀ x ∈ post, jsStartsWith x "!SPL" = false)
    (hl1 : jsStartsWith line "!TRNS" = false)
    (hl2 : jsStartsWith line "!SPL" = false)
    (hl3 : jsStartsWith line "TRNS" = false)
    (hl4 : jsStartsWith line "SPL" = true)
    (hacc : getVal (splitOnChar '\t' (jsTrim line)) (buildHeaderMap decl)
      "ACCNT" ≠ "0-201-0") :
    (((pre ++ decl :: post ++ [line]).foldl billsStep {}).rows =
      ((pre ++ decl :: post).foldl billsStep {}).rows ++
        [mkSplRow (buildHeaderMap decl)
          ((pre ++ decl :: post).foldl billsStep {}).ctx
          (splitOnChar '\t' (jsTrim line))]) ∧
    (∀ lines d, lines.find? (fun l => jsStartsWith (jsTrim l) "!SPL") = some d →
      convertGLLines lines =
        .ok (((lines.filter (fun l => jsStartsWith l "SPL")).map
          (mkGLRow (buildHeaderMap d))).insertionSort
            (fun a b => strLeB a.JournalNo b.JournalNo = true))) := by
  constructor
  · have hmap : ((pre ++ decl :: post).foldl billsStep {}).mapSpl =
        buildHeaderMap decl := by
      have hsplit2 : pre ++ decl :: post = (pre ++ [decl]) ++ post := by
        simp
      rw [hsplit2, List.foldl_append,
        billsFold_mapSpl post _ hpost, List.foldl_append]
      simp [billsStep, hd1, hd2]
    have hempty : (((pre ++ decl :: post).foldl billsStep {}).mapSpl).isEmpty
        = false := by
      rw [hmap]
      rcases hbm : buildHeaderMap decl with _ | ⟨a, b⟩
      · exact absurd hbm (buildHeaderMap_ne_nil decl)
      · rfl
    have hsplit : pre ++ decl :: post ++ [line] =
        (pre ++ decl :: post) ++ [line] := by
      simp
    rw [hsplit, List.foldl_append, List.foldl_cons, List.foldl_nil,
      billsStep_spl_rows _ line hl1 hl2 hl3 hl4 hempty
        (by rw [hmap]; exact hacc), hmap]
  · intro lines d hfind
    have hempty : (buildHeaderMap d).isEmpty = false := by
      rcases hbm : buildHeaderMap d with _ | ⟨a, b⟩
      · exact absurd hbm (buildHeaderMap_ne_nil d)
      · rfl
    simp [convertGLLines, hfind, hempty]

theorem C5_witness :
    ((["!TRNS\tDOCNUM\tDATE\tNAME", "!SPL\tAMOUNT\tACCNT\tMEMO"] ++
        "!SPL\tACCNT\tAMOUNT\tMEMO" :: ["TRNS\tB1\t1/5/24\tAcme"] ++
        ["SPL\t0-682-0\t12.5\tx"]).foldl billsStep {}).rows =
      ((["!TRNS\tDOCNUM\tDATE\tNAME", "!SPL\tAMOUNT\tACCNT\tMEMO"] ++
        "!SPL\tACCNT\tAMOUNT\tMEMO" :: ["TRNS\tB1\t1/5/24\tAcme"]).foldl
          billsStep {}).rows ++
        [mkSplRow (buildHeaderMap "!SPL\tACCNT\tAMOUNT\tMEMO")
          ((["!TRNS\tDOCNUM\tDATE\tNAME", "!SPL\tAMOUNT\tACCNT\tMEMO"] ++
            "!SPL\tACCNT\tAMOUNT\tMEMO" :: ["TRNS\tB1\t1/5/24\tAcme"]).foldl
              billsStep {}).ctx
          (splitOnChar '\t' (jsTrim "SPL\t0-682-0\t12.5\tx"))] :=
  (C5_redeclaration ["!TRNS\tDOCNUM\tDATE\tNAME", "!SPL\tAMOUNT\tACCNT\tMEMO"]
    "!SPL\tACCNT\tAMOUNT\tMEMO" ["TRNS\tB1\t1/5/24\tAcme"]
    "SPL\t0-682-0\t12.5\tx" (by decide) (by decide) (by decide) (by decide)
    (by decide) (by decide) (by decide) (by decide)).1

/-! Association-list lemmas for the JS-object maps -/

theorem lookupStr_map_preserve (m : List (String × String)) (k' v k : String)
    (h : k ≠ k') :
    lookupStr (m.map (fun p => if p.1 == k' then (p.1, v) else p)) k =
      lookupStr m k := by
  induction m with
  | nil => rfl
  | cons p ps ih =>
    by_cases h1 : (p.1 == k') = true
    · have hfp : (if p.1 == k' then (p.1, v) else p) = (p.1, v) := by
        simp [h1]
      by_cases h2 : (p.1 == k) = true
      · rw [beq_iff_eq] at h1 h2
        exact absurd (h2.symm.trans h1) h
      · have hb : (p.1 == k) = false := by
          simpa using h2
        simp only [lookupStr, List.map_cons, hfp, List.find?_cons]
        simp only [hb]
        simpa [lookupStr] using ih
    · have hfp : (if p.1 == k' then (p.1, v) else p) = p := by
        simp [h1]
      by_cases h2 : (p.1 == k) = true
      · simp only [lookupStr, List.map_cons, hfp, List.find?_cons]
        simp only [h2]
      · have hb : (p.1 == k) = false := by
          simpa using h2
        simp only [lookupStr, List.map_cons, hfp, List.find?_cons]
        simp only [hb]
        simpa [lookupStr] using ih

theorem lookupStr_append_single_ne (m : List (String × String))
    (k' v k : String) (h : k ≠ k') :
    lookupStr (m ++ [(k', v)]) k = lookupStr m k := by
  induction m with
  | nil =>
    have hb : (k' == k) = false := by
      simp only [beq_eq_false_iff_ne, ne_eq]
      exact Ne.symm h
    simp only [lookupStr, List.nil_append, List.find?_cons, List.find?_nil]
    simp [hb]
  | cons p ps ih =>
    by_cases h2 : (p.1 == k) = true
    · simp only [lookupStr, List.cons_append, List.find?_cons]
      simp only [h2]
    · have hb : (p.1 == k) = false := by
        simpa using h2
      simp only [lookupStr, List.cons_append, List.find?_cons]
      simp only [hb]
      simpa [lookupStr] using ih

theorem lookupStr_upsertStr_ne (m : List (String × String)) (k' v k : String)
    (h : k ≠ k') :
    lookupStr (upsertStr m k' v) k = lookupStr m k := by
  unfold upsertStr
  split
  · exact lookupStr_map_preserve m k' v k h
  · exact lookupStr_append_single_ne m k' v k h

theorem lookupStr_map_self (m : List (String × String)) (k v : String)
    (hany : m.any (fun p => p.1 == k) = true) :
    (lookupStr (m.map (fun p => if p.1 == k then (p.1, v) else p))
      k).isSome = true := by
  induction m with
  | nil => simp at hany
  | cons p ps ih =>
    by_cases h2 : (p.1 == k) = true
    · have hfp : (if p.1 == k then (p.1, v) else p) = (p.1, v) := by
        simp [h2]
      simp only [lookupStr, List.map_cons, hfp, List.find?_cons]
      simp only [h2]
      rfl
    · have hb : (p.1 == k) = false := by
        simpa using h2
      have hfp : (if p.1 == k then (p.1, v) else p) = p := by
        simp [hb]
      simp only [List.any_cons, hb, Bool.false_or] at hany
      simp only [lookupStr, List.map_cons, hfp, List.find?_cons]
      simp only [hb]
      simpa [lookupStr] using ih hany

theorem lookupStr_append_single_self (m : List (String × String))
    (k v : String) :
    (lookupStr (m ++ [(k, v)]) k).isSome = true := by
  induction m with
  | nil =>
    simp only [lookupStr, List.nil_append, List.find?_cons]
    simp
  | cons p ps ih =>
    by_cases h2 : (p.1 == k) = true
    · simp only [lookupStr, List.cons_append, List.find?_cons]
      simp only [h2]
      rfl
    · have hb : (p.1 == k) = false := by
        simpa using h2
      simp only [lookupStr, List.cons_append, List.find?_cons]
      simp only [hb]
      exact ih

theorem lookupStr_upsertStr_self (m : List (String × String)) (k v : String) :
    (lookupStr (upsertStr m k v) k).isSome = true := by
  unfold upsertStr
  split
  · rename_i hany
    exact lookupStr_map_self m k v hany
  · exact lookupStr_append_single_self m k v

theorem lookupStr_foldl_upsert_ne {α : Type} (key val : α → String)
    (l : List α) :
    ∀ m k, (∀ x ∈ l, key x ≠ k) →
      lookupStr (l.foldl (fun m x => upsertStr m (key x) (val x)) m) k =
        lookupStr m k := by
  induction l with
  | nil => intro m k _; rfl
  | cons x xs ih =>
    intro m k h
    rw [List.foldl_cons, ih _ k (fun y hy => h y (by simp [hy])),
      lookupStr_upsertStr_ne _ _ _ _ (Ne.symm (h x (by simp)))]

theorem lookupStr_foldl_upsert_isSome {α : Type} (key val : α → String)
    (l : List α) :
    ∀ m k, (lookupStr m k).isSome = true →
      (lookupStr (l.foldl (fun m x => upsertStr m (key x) (val x)) m)
        k).isSome = true := by
  induction l with
  | nil => intro m k h; exact h
  | cons x xs ih =>
    intro m k h
    rw [List.foldl_cons]
    apply ih
    by_cases hk : k = key x
    · subst hk
      exact lookupStr_upsertStr_self m (key x) (val x)
    · rw [lookupStr_upsertStr_ne _ _ _ _ hk]
      exact h

theorem lookupStr_foldl_upsert_present {α : Type} (key val : α → String)
    (l : List α) :
    ∀ m a, a ∈ l →
      (lookupStr (l.foldl (fun m x => upsertStr m (key x) (val x)) m)
        (key a)).isSome = true := by
  induction l with
  | nil => intro m a h; simp at h
  | cons x xs ih =>
    intro m a h
    rw [List.foldl_cons]
    rcases List.mem_cons.mp h with h | h
    · subst h
      exact lookupStr_foldl_upsert_isSome key val xs _ _
        (lookupStr_upsertStr_self m (key a) (val a))
    · exact ih _ a h

/-- C3 counterexample: refreshMappings does not rebuild the maps
wholesale.  Starting from a map holding a stale entry OLD and a refresh
whose query result contains only NEW, the refreshed account map is
[OLD, NEW]: the stale entry remains although it was not re-fetched. -/
theorem C3_counterexample :
    ([⟨"NEW", "1"⟩] : List QBAccount).map (fun a => jsTrim a.Name) =
      ["NEW"] ∧
    "OLD" ≠ "NEW" ∧
    (refreshMappings ⟨[("OLD", "9")], []⟩ (some [⟨"NEW", "1"⟩])
      none).accountMap = [("OLD", "9"), ("NEW", "1")] ∧
    lookupStr (refreshMappings ⟨[("OLD", "9")], []⟩ (some [⟨"NEW", "1"⟩])
      none).accountMap "OLD" = some "9" := by
  decide

/-- C3 (amended): refreshMappings merges the fetched account and vendor
lists into the existing maps: every fetched (trimmed) name is present
afterwards, while every key not among the fetched names keeps its
previous binding — in particular entries from earlier refreshes that
were not re-fetched persist. -/
theorem C3_refresh_merges (st : QBState) (accs : List QBAccount)
    (vens : List QBVendor) :
    (∀ k, (∀ a ∈ accs, jsTrim a.Name ≠ k) →
      lookupStr (refreshMappings st (some accs) (some vens)).accountMap k =
        lookupStr st.accountMap k) ∧
    (∀ k, (∀ v ∈ vens, jsTrim v.DisplayName ≠ k) →
      lookupStr (refreshMappings st (some accs) (some vens)).vendorMap k =
        lookupStr st.vendorMap k) ∧
    (∀ a ∈ accs,
      (lookupStr (refreshMappings st (some accs) (some vens)).accountMap
        (jsTrim a.Name)).isSome = true) ∧
    (∀ v ∈ vens,
      (lookupStr (refreshMappings st (some accs) (some vens)).vendorMap
        (jsTrim v.DisplayName)).isSome = true) := by
  refine ⟨?_, ?_, ?_, ?_⟩
  · intro k h
    exact lookupStr_foldl_upsert_ne (fun a => jsTrim a.Name)
      (fun a => a.Id) accs st.accountMap k h
  · intro k h
    exact lookupStr_foldl_upsert_ne (fun v => jsTrim v.DisplayName)
      (fun v => v.Id) vens st.vendorMap k h
  · intro a ha
    exact lookupStr_foldl_upsert_present (fun a => jsTrim a.Name)
      (fun a => a.Id) accs st.accountMap a ha
  · intro v hv
    exact lookupStr_foldl_upsert_present (fun v => jsTrim v.DisplayName)
      (fun v => v.Id) vens st.vendorMap v hv

theorem C3_witness :
    lookupStr (refreshMappings ⟨[("OLD", "9")], []⟩ (some [⟨"NEW", "1"⟩])
      (some [])).accountMap "OLD" = lookupStr [("OLD", "9")] "OLD" ∧
    (lookupStr (refreshMappings ⟨[("OLD", "9")], []⟩ (some [⟨"NEW", "1"⟩])
      (some [])).accountMap (jsTrim "NEW")).isSome = true :=
  ⟨(C3_refresh_merges ⟨[("OLD", "9")], []⟩ [⟨"NEW", "1"⟩] []).1 "OLD"
      (by decide),
   (C3_refresh_merges ⟨[("OLD", "9")], []⟩ [⟨"NEW", "1"⟩] []).2.2.1
      ⟨"NEW", "1"⟩ (by decide)⟩

/-- C7 counterexample: with an account map whose entry for the exact
trimmed label carries an empty identifier, resolution does not return
that mapped identifier — the JS truthiness test skips the exact match
and the prefix scan returns the identifier of an earlier entry. -/
theorem C7_counterexample :
    jsTrim "0-115-0" = "0-115-0" ∧
    lookupStr [("0-1", "7"), ("0-115-0", "")] "0-115-0" = some "" ∧
    findAccountId [("0-1", "7"), ("0-115-0", "")] "0-115-0" = some "7" ∧
    findAccountId [("0-1", "7"), ("0-115-0", "")] "0-115-0" ≠ some "" := by
  decide

/-- C7 (amended): provided every key and identifier in the map is
non-empty, resolution returns the mapped identifier on an exact match
of the trimmed label; otherwise the identifier of the first map entry
in insertion order whose key overlaps the trimmed label as a prefix in
either direction; otherwise not-found. -/
theorem C7_resolution_order (m : List (String × String)) (name : String)
    (hkeys : ∀ p ∈ m, p.1 ≠ "") (hvals : ∀ p ∈ m, p.2 ≠ "") :
    (∀ v, lookupStr m (jsTrim name) = some v →
      findAccountId m name = some v) ∧
    (lookupStr m (jsTrim name) = none →
      ∀ k, (m.map (fun p => p.1)).find?
          (fun k => jsStartsWith k (jsTrim name) ||
            jsStartsWith (jsTrim name) k) = some k →
        findAccountId m name = lookupStr m k) ∧
    (lookupStr m (jsTrim name) = none →
      (m.map (fun p => p.1)).find?
          (fun k => jsStartsWith k (jsTrim name) ||
            jsStartsWith (jsTrim name) k) = none →
      findAccountId m name = none) := by
  refine ⟨?_, ?_, ?_⟩
  · intro v hv
    have hexists : ∃ p, m.find? (fun p => p.1 == jsTrim name) = some p ∧
        p.2 = v := by
      unfold lookupStr at hv
      cases hfind : m.find? (fun p => p.1 == jsTrim name) with
      | none => rw [hfind] at hv; simp at hv
      | some p =>
        rw [hfind] at hv
        simp at hv
        exact ⟨p, rfl, hv⟩
    obtain ⟨p, hfind, hpv⟩ := hexists
    have hp : p ∈ m := List.mem_of_find?_eq_some hfind
    have hvne : v ≠ "" := hpv ▸ hvals p hp
    simp only [findAccountId, hv]
    rw [if_neg hvne]
  · intro hnone k hfindk
    have hk : k ∈ m.map (fun p => p.1) := List.mem_of_find?_eq_some hfindk
    obtain ⟨p, hp, hpk⟩ := List.mem_map.mp hk
    have hkne : k ≠ "" := hpk ▸ hkeys p hp
    simp only [findAccountId, hnone, findAccountId.findAccountIdOverlap,
      hfindk]
    rw [if_neg hkne]
  · intro hnone hfindnone
    simp only [findAccountId, hnone, findAccountId.findAccountIdOverlap,
      hfindnone]

theorem C7_witness :
    findAccountId [("0-115-0 INVENTORY - PARTS", "42")] "0-115-0" =
      lookupStr [("0-115-0 INVENTORY - PARTS", "42")]
        "0-115-0 INVENTORY - PARTS" ∧
    findAccountId [("K", "9")] "K" = some "9" ∧
    findAccountId [("A", "1")] "zzz" = none :=
  ⟨(C7_resolution_order [("0-115-0 INVENTORY - PARTS", "42")] "0-115-0"
      (by decide) (by decide)).2.1 (by decide)
      "0-115-0 INVENTORY - PARTS" (by decide),
   (C7_resolution_order [("K", "9")] "K" (by decide) (by decide)).1 "9"
      (by decide),
   (C7_resolution_order [("A", "1")] "zzz" (by decide) (by decide)).2.2
      (by decide) (by decide)⟩

/-! Document grouping and batch iteration lemmas -/

theorem groupStep_key_preserve (key : QBORow → String)
    (gs : List (String × List QBORow)) (e : QBORow) (k : String)
    (h : ∃ g ∈ gs, g.1 = k) :
    ∃ g ∈ (if gs.any (fun g => g.1 == key e) then
        gs.map (fun g => if g.1 == key e then (g.1, g.2 ++ [e]) else g)
      else gs ++ [(key e, [e])]), g.1 = k := by
  obtain ⟨g, hg, hgk⟩ := h
  split
  · refine ⟨(if g.1 == key e then (g.1, g.2 ++ [e]) else g),
      List.mem_map_of_mem _ hg, ?_⟩
    split <;> simpa using hgk
  · exact ⟨g, by simp [hg], hgk⟩

theorem groupStep_key_adds (key : QBORow → String)
    (gs : List (String × List QBORow)) (e : QBORow) :
    ∃ g ∈ (if gs.any (fun g => g.1 == key e) then
        gs.map (fun g => if g.1 == key e then (g.1, g.2 ++ [e]) else g)
      else gs ++ [(key e, [e])]), g.1 = key e := by
  split
  · rename_i hany
    simp only [List.any_eq_true] at hany
    obtain ⟨g, hg, hgk⟩ := hany
    refine ⟨(g.1, g.2 ++ [e]), ?_, by simpa using hgk⟩
    have hfg : (if g.1 == key e then (g.1, g.2 ++ [e]) else g) =
        (g.1, g.2 ++ [e]) := by
      simp [hgk]
    rw [← hfg]
    exact List.mem_map_of_mem _ hg
  · exact ⟨(key e, [e]), by simp, rfl⟩

theorem groupFold_key_preserve (key : QBORow → String) (l : List QBORow) :
    ∀ (gs : List (String × List QBORow)) (k : String),
      (∃ g ∈ gs, g.1 = k) →
      ∃ g ∈ l.foldl (fun gs e =>
        if gs.any (fun g => g.1 == key e) then
          gs.map (fun g => if g.1 == key e then (g.1, g.2 ++ [e]) else g)
        else gs ++ [(key e, [e])]) gs, g.1 = k := by
  induction l with
  | nil => intro gs k h; exact h
  | cons e es ih =>
    intro gs k h
    exact ih _ k (groupStep_key_preserve key gs e k h)

/-- Every entry's document key labels some group of groupByKey. -/
theorem groupByKey_covers (key : QBORow → String) (l : List QBORow) :
    ∀ x ∈ l, ∃ g ∈ groupByKey key l, g.1 = key x := by
  unfold groupByKey
  suffices h : ∀ (gs : List (String × List QBORow)), ∀ x ∈ l,
      ∃ g ∈ l.foldl (fun gs e =>
        if gs.any (fun g => g.1 == key e) then
          gs.map (fun g => if g.1 == key e then (g.1, g.2 ++ [e]) else g)
        else gs ++ [(key e, [e])]) gs, g.1 = key x by
    exact h []
  induction l with
  | nil => intro gs x hx; simp at hx
  | cons e es ih =>
    intro gs x hx
    rcases List.mem_cons.mp hx with hx | hx
    · subst hx
      exact groupFold_key_preserve key es _ (key x)
        (groupStep_key_adds key gs x)
    · exact ih _ x hx

theorem groupStep_pairwise (key : QBORow → String)
    (gs : List (String × List QBORow)) (e : QBORow)
    (h : gs.Pairwise (fun a b => a.1 ≠ b.1)) :
    (if gs.any (fun g => g.1 == key e) then
        gs.map (fun g => if g.1 == key e then (g.1, g.2 ++ [e]) else g)
      else gs ++ [(key e, [e])]).Pairwise (fun a b => a.1 ≠ b.1) := by
  split
  · rw [List.pairwise_map]
    refine h.imp ?_
    intro a b hab
    have ha : (if a.1 == key e then (a.1, a.2 ++ [e]) else a).1 = a.1 := by
      split <;> rfl
    have hb : (if b.1 == key e then (b.1, b.2 ++ [e]) else b).1 = b.1 := by
      split <;> rfl
    rw [ha, hb]
    exact hab
  · rename_i hany
    rw [List.pairwise_append]
    refine ⟨h, List.pairwise_singleton _ _, ?_⟩
    intro a ha b hb
    simp only [List.mem_singleton] at hb
    subst hb
    intro hk
    have hk2 : a.1 = key e := hk
    have hany2 : (gs.any fun g => g.1 == key e) = true :=
      List.any_eq_true.mpr ⟨a, ha, by simp [hk2]⟩
    exact hany hany2

/-- The groups produced by groupByKey carry pairwise distinct keys. -/
theorem groupByKey_pairwise (key : QBORow → String) (l : List QBORow) :
    (groupByKey key l).Pairwise (fun a b => a.1 ≠ b.1) := by
  unfold groupByKey
  suffices h : ∀ gs : List (String × List QBORow),
      gs.Pairwise (fun a b => a.1 ≠ b.1) →
      (l.foldl (fun gs e =>
        if gs.any (fun g => g.1 == key e) then
          gs.map (fun g => if g.1 == key e then (g.1, g.2 ++ [e]) else g)
        else gs ++ [(key e, [e])]) gs).Pairwise (fun a b => a.1 ≠ b.1) by
    exact h [] (List.Pairwise.nil)
  induction l with
  | nil => intro gs h; exact h
  | cons e es ih =>
    intro gs h
    exact ih _ (groupStep_pairwise key gs e h)

/-- Shape of one batch iteration of the sync loops: every group adds
exactly one success or one failure, each failure appending exactly one
error string built from the prefix, the group's key and a message. -/
theorem syncFold_spec (pre : String)
    (f : String × List QBORow → Except String Unit)
    (groups : List (String × List QBORow)) :
    ∀ init : SyncResults,
      (SyncResults.success (groups.foldl (fun results g =>
        match f g with
        | .ok _ => { results with success := results.success + 1 }
        | .error e =>
          { results with
            failed := results.failed + 1
            errors := results.errors ++ [pre ++ g.1 ++ ": " ++ e] })
        init) +
      SyncResults.failed (groups.foldl (fun results g =>
        match f g with
        | .ok _ => { results with success := results.success + 1 }
        | .error e =>
          { results with
            failed := results.failed + 1
            errors := results.errors ++ [pre ++ g.1 ++ ": " ++ e] })
        init) = init.success + init.failed + groups.length) ∧
      (List.length (SyncResults.errors (groups.foldl (fun results g =>
        match f g with
        | .ok _ => { results with success := results.success + 1 }
        | .error e =>
          { results with
            failed := results.failed + 1
            errors := results.errors ++ [pre ++ g.1 ++ ": " ++ e] })
        init)) + init.failed = init.errors.length +
      SyncResults.failed (groups.foldl (fun results g =>
        match f g with
        | .ok _ => { results with success := results.success + 1 }
        | .error e =>
          { results with
            failed := results.failed + 1
            errors := results.errors ++ [pre ++ g.1 ++ ": " ++ e] })
        init)) ∧
      (∀ e ∈ SyncResults.errors (groups.foldl (fun results g =>
        match f g with
        | .ok _ => { results with success := results.success + 1 }
        | .error e =>
          { results with
            failed := results.failed + 1
            errors := results.errors ++ [pre ++ g.1 ++ ": " ++ e] })
        init), e ∈ init.errors ∨
        ∃ g ∈ groups, ∃ msg, e = pre ++ g.1 ++ ": " ++ msg) := by
  induction groups with
  | nil =>
    intro init
    refine ⟨by simp, by simp, ?_⟩
    intro e he
    exact Or.inl he
  | cons g gs ih =>
    intro init
    simp only [List.foldl_cons, List.length_cons]
    cases hf : f g with
    | ok u =>
      simp only [hf]
      obtain ⟨ih1, ih2, ih3⟩ :=
        ih { init with success := init.success + 1 }
      refine ⟨by rw [ih1]; dsimp only; omega, by rw [ih2], ?_⟩
      intro e he
      rcases ih3 e he with he2 | he2
      · exact Or.inl he2
      · obtain ⟨g2, hg2, msg, hmsg⟩ := he2
        exact Or.inr ⟨g2, by simp [hg2], msg, hmsg⟩
    | error err =>
      simp only [hf]
      obtain ⟨ih1, ih2, ih3⟩ :=
        ih { init with
          failed := init.failed + 1
          errors := init.errors ++ [pre ++ g.1 ++ ": " ++ err] }
      refine ⟨by rw [ih1]; dsimp only; omega, ?_, ?_⟩
      · dsimp only at ih2
        simp only [List.length_append, List.length_singleton] at ih2
        omega
      · intro e he
        rcases ih3 e he with he2 | he2
        · rcases List.mem_append.mp he2 with he3 | he3
          · exact Or.inl he3
          · simp only [List.mem_singleton] at he3
            exact Or.inr ⟨g, by simp, err, he3⟩
        · obtain ⟨g2, hg2, msg, hmsg⟩ := he2
          exact Or.inr ⟨g2, by simp [hg2], msg, hmsg⟩

/-- C6: both sync loops group rows by their document key and submit
each group independently: every group contributes exactly one success
or one failure, each failure appends exactly one error string naming
that document's key, success plus failure counts equal the number of
groups, the groups carry pairwise distinct keys, and every row's key is
represented by a group. -/
theorem C6_partial_batch_tolerance
    (apiJE : JEPayload → Except String Unit)
    (apiB : BillPayload → Except String Unit) (todayIso : String)
    (amap vmap : List (String × String)) (jes bills : List QBORow) :
    ((syncJournalEntries apiJE todayIso amap jes).success +
        (syncJournalEntries apiJE todayIso amap jes).failed =
        (groupByKey (fun e => e.JournalNo) jes).length ∧
      (syncJournalEntries apiJE todayIso amap jes).errors.length =
        (syncJournalEntries apiJE todayIso amap jes).failed ∧
      (∀ e ∈ (syncJournalEntries apiJE todayIso amap jes).errors,
        ∃ g ∈ groupByKey (fun e => e.JournalNo) jes, ∃ msg,
          e = "Journal " ++ g.1 ++ ": " ++ msg) ∧
      (groupByKey (fun e => e.JournalNo) jes).Pairwise
        (fun a b => a.1 ≠ b.1) ∧
      (∀ x ∈ jes, ∃ g ∈ groupByKey (fun e => e.JournalNo) jes,
        g.1 = x.JournalNo)) ∧
    ((syncBills apiB todayIso amap vmap bills).success +
        (syncBills apiB todayIso amap vmap bills).failed =
        (groupByKey (fun e => e.BillNo) bills).length ∧
      (syncBills apiB todayIso amap vmap bills).errors.length =
        (syncBills apiB todayIso amap vmap bills).failed ∧
      (∀ e ∈ (syncBills apiB todayIso amap vmap bills).errors,
        ∃ g ∈ groupByKey (fun e => e.BillNo) bills, ∃ msg,
          e = "Bill " ++ g.1 ++ ": " ++ msg) ∧
      (groupByKey (fun e => e.BillNo) bills).Pairwise
        (fun a b => a.1 ≠ b.1) ∧
      (∀ x ∈ bills, ∃ g ∈ groupByKey (fun e => e.BillNo) bills,
        g.1 = x.BillNo)) := by
  obtain ⟨hj1, hj2, hj3⟩ := syncFold_spec "Journal "
    (fun g => do
      let payload ← buildJEPayload amap todayIso g.1 g.2
      apiJE payload)
    (groupByKey (fun e => e.JournalNo) jes) {}
  obtain ⟨hb1, hb2, hb3⟩ := syncFold_spec "Bill "
    (fun g => do
      let payload ← buildBillPayload amap vmap todayIso g.1 g.2
      apiB payload)
    (groupByKey (fun e => e.BillNo) bills) {}
  refine ⟨⟨?_, ?_, ?_, groupByKey_pairwise _ jes, groupByKey_covers _ jes⟩,
    ?_, ?_, ?_, groupByKey_pairwise _ bills, groupByKey_covers _ bills⟩
  · simpa using hj1
  · simpa using hj2
  · intro e he
    rcases hj3 e he with h | h
    · simp at h
    · exact h
  · simpa using hb1
  · simpa using hb2
  · intro e he
    rcases hb3 e he with h | h
    · simp at h
    · exact h

theorem C6_witness :
    (syncJournalEntries (fun _ => .ok ()) "2026-01-01"
        [("0-115-0 INVENTORY - PARTS", "42"), ("0-682-0 SHIPPING EXPENSE", "7")]
        [{ JournalNo := "J1", JournalDate := "1/5/24", Description := "d1",
           Account := "0-115-0", Debit := "5.00", Credit := "", Name := "" },
         { JournalNo := "J1", JournalDate := "1/5/24", Description := "d2",
           Account := "0-682-0", Debit := "", Credit := "5.00", Name := "" },
         { JournalNo := "J2", JournalDate := "1/6/24", Description := "d3",
           Account := "MISSING", Debit := "1.00", Credit := "", Name := "" },
         { JournalNo := "J3", JournalDate := "1/7/24", Description := "d4",
           Account := "0-682-0", Debit := "2.00", Credit := "", Name := "" }]).success +
      (syncJournalEntries (fun _ => .ok ()) "2026-01-01"
        [("0-115-0 INVENTORY - PARTS", "42"), ("0-682-0 SHIPPING EXPENSE", "7")]
        [{ JournalNo := "J1", JournalDate := "1/5/24", Description := "d1",
           Account := "0-115-0", Debit := "5.00", Credit := "", Name := "" },
         { JournalNo := "J1", JournalDate := "1/5/24", Description := "d2",
           Account := "0-682-0", Debit := "", Credit := "5.00", Name := "" },
         { JournalNo := "J2", JournalDate := "1/6/24", Description := "d3",
           Account := "MISSING", Debit := "1.00", Credit := "", Name := "" },
         { JournalNo := "J3", JournalDate := "1/7/24", Description := "d4",
           Account := "0-682-0", Debit := "2.00", Credit := "", Name := "" }]).failed =
      (groupByKey (fun e => e.JournalNo)
        [{ JournalNo := "J1", JournalDate := "1/5/24", Description := "d1",
           Account := "0-115-0", Debit := "5.00", Credit := "", Name := "" },
         { JournalNo := "J1", JournalDate := "1/5/24", Description := "d2",
           Account := "0-682-0", Debit := "", Credit := "5.00", Name := "" },
         { JournalNo := "J2", JournalDate := "1/6/24", Description := "d3",
           Account := "MISSING", Debit := "1.00", Credit := "", Name := "" },
         { JournalNo := "J3", JournalDate := "1/7/24", Description := "d4",
           Account := "0-682-0", Debit := "2.00", Credit := "", Name := "" }]).length ∧
    (syncJournalEntries (fun _ => .ok ()) "2026-01-01"
        [("0-115-0 INVENTORY - PARTS", "42"), ("0-682-0 SHIPPING EXPENSE", "7")]
        [{ JournalNo := "J1", JournalDate := "1/5/24", Description := "d1",
           Account := "0-115-0", Debit := "5.00", Credit := "", Name := "" },
         { JournalNo := "J1", JournalDate := "1/5/24", Description := "d2",
           Account := "0-682-0", Debit := "", Credit := "5.00", Name := "" },
         { JournalNo := "J2", JournalDate := "1/6/24", Description := "d3",
           Account := "MISSING", Debit := "1.00", Credit := "", Name := "" },
         { JournalNo := "J3", JournalDate := "1/7/24", Description := "d4",
           Account := "0-682-0", Debit := "2.00", Credit := "", Name := "" }]) =
      { success := 2, failed := 1,
        errors := ["Journal J2: Account \"MISSING\" not found in QuickBooks."] } := by
  constructor
  · exact (C6_partial_batch_tolerance (fun _ => .ok ()) (fun _ => .ok ())
      "2026-01-01"
      [("0-115-0 INVENTORY - PARTS", "42"), ("0-682-0 SHIPPING EXPENSE", "7")]
      [] _ []).1.1
  · decide

/-! Zero-valid-row ingestion lemmas -/

theorem shopifyFoldRow_skip (nowIso fileName : String)
    (st : List Transaction × ℕ) (row : Row)
    (h : shopifyAmount row = none) :
    shopifyFoldRow nowIso fileName st row = st := by
  simp [shopifyFoldRow, shopifyRowTx, h]

theorem shopifyRows_skip (nowIso fileName : String) (rows : List Row) :
    ∀ st, (∀ r ∈ rows, shopifyAmount r = none) →
      rows.foldl (shopifyFoldRow nowIso fileName) st = st := by
  induction rows with
  | nil => intro st _; rfl
  | cons r rs ih =>
    intro st h
    rw [List.foldl_cons, shopifyFoldRow_skip nowIso fileName st r
      (h r (by simp))]
    exact ih st (fun x hx => h x (by simp [hx]))

theorem shopifyFiles_skip (nowIso : String)
    (files : List (String × List Row)) :
    ∀ st, (∀ f ∈ files, ∀ row ∈ f.2, shopifyAmount row = none) →
      files.foldl (fun st f => f.2.foldl (shopifyFoldRow nowIso f.1) st) st =
        st := by
  induction files with
  | nil => intro st _; rfl
  | cons f fs ih =>
    intro st hh
    rw [List.foldl_cons, shopifyRows_skip nowIso f.1 f.2 st
      (hh f (List.mem_cons_self f fs))]
    exact ih st (fun x hx => hh x (List.mem_cons_of_mem f hx))

theorem shopifyTransactions_nil (nowIso : String)
    (files : List (String × List Row))
    (h : ∀ f ∈ files, ∀ row ∈ f.2, shopifyAmount row = none) :
    shopifyTransactions nowIso files = [] := by
  unfold shopifyTransactions
  rw [shopifyFiles_skip nowIso files ([], 0) h]

theorem paypalRowTx_none (row : Row)
    (h : paypalRowTx 0 "" row = none) (c : ℕ) (n : String) :
    paypalRowTx c n row = none := by
  unfold paypalRowTx at h ⊢
  cases h1 : truthy (rowGet row "Date") <;>
    cases h2 : truthy (rowGet row "Time") <;>
    simp only [h1, h2] at h ⊢
  split_ifs at h ⊢ <;> simp_all

theorem paypalFoldRow_skip (fileName : String) (st : List Transaction × ℕ)
    (row : Row) (h : paypalRowTx 0 "" row = none) :
    paypalFoldRow fileName st row = st := by
  simp [paypalFoldRow, paypalRowTx_none row h st.2 fileName]

theorem paypalRows_skip (fileName : String) (rows : List Row) :
    ∀ st, (∀ r ∈ rows, paypalRowTx 0 "" r = none) →
      rows.foldl (paypalFoldRow fileName) st = st := by
  induction rows with
  | nil => intro st _; rfl
  | cons r rs ih =>
    intro st h
    rw [List.foldl_cons, paypalFoldRow_skip fileName st r (h r (by simp))]
    exact ih st (fun x hx => h x (by simp [hx]))

theorem paypalFiles_skip (files : List (String × List Row)) :
    ∀ st, (∀ f ∈ files, ∀ row ∈ f.2, paypalRowTx 0 "" row = none) →
      files.foldl (fun st f => f.2.foldl (paypalFoldRow f.1) st) st = st := by
  induction files with
  | nil => intro st _; rfl
  | cons f fs ih =>
    intro st hh
    rw [List.foldl_cons, paypalRows_skip f.1 f.2 st
      (hh f (List.mem_cons_self f fs))]
    exact ih st (fun x hx => hh x (List.mem_cons_of_mem f hx))

theorem paypalTransactions_nil (files : List (String × List Row))
    (h : ∀ f ∈ files, ∀ row ∈ f.2, paypalRowTx 0 "" row = none) :
    paypalTransactions files = [] := by
  unfold paypalTransactions
  rw [paypalFiles_skip files ([], 0) h]

/-- C1 counterexample: a Shopify batch whose single file yields zero
valid rows (its only row's amount cell does not parse) does not reject
with a ParseError; the call resolves with an empty ReportSummary. -/
theorem C1_counterexample :
    shopifyAmount [("Amount", "abc")] = none ∧
    parseShopifyCSV (fun _ => ⟨2024, 1, 1, 0, 0, 0⟩) "2024-01-01T00:00:00"
        "1/1/2024" [("bad.csv", [[("Amount", "abc")]])] =
      .ok { dateRange := "1/1/2024", totalAmount := some (ofCents 0),
            totalFees := some (ofCents 0), totalNet := some (ofCents 0),
            transactionCount := 0, dailyGroups := [],
            allTransactions := [] } := by
  decide

/-- C1 (amended): an ingestion call whose files yield zero valid rows
does not fail; both parseShopifyCSV and parsePaypalCSV resolve with the
empty ReportSummary: zero transactions, no daily groups, and the
current-date fallback as the date-range label. -/
theorem C1_zero_valid_rows_resolves (dparse : String → JSDate)
    (nowIso todayLocale : String) (files pfiles : List (String × List Row))
    (hs : ∀ f ∈ files, ∀ row ∈ f.2, shopifyAmount row = none)
    (hp : ∀ f ∈ pfiles, ∀ row ∈ f.2, paypalRowTx 0 "" row = none) :
    parseShopifyCSV dparse nowIso todayLocale files =
      .ok (summarize dparse todayLocale []) ∧
    parsePaypalCSV dparse todayLocale pfiles =
      .ok (summarize dparse todayLocale []) ∧
    (summarize dparse todayLocale []).transactionCount = 0 ∧
    (summarize dparse todayLocale []).dailyGroups = [] ∧
    (summarize dparse todayLocale []).allTransactions = [] ∧
    (summarize dparse todayLocale []).dateRange = todayLocale := by
  refine ⟨?_, ?_, rfl, rfl, rfl, rfl⟩
  · unfold parseShopifyCSV
    rw [shopifyTransactions_nil nowIso files hs]
    rfl
  · unfold parsePaypalCSV
    rw [paypalTransactions_nil pfiles hp]
    rfl

theorem C1_witness :
    parseShopifyCSV (fun _ => ⟨2024, 1, 1, 0, 0, 0⟩) "2024-01-01T00:00:00"
        "1/1/2024" [("bad.csv", [[("Amount", "abc")]])] =
      .ok (summarize (fun _ => ⟨2024, 1, 1, 0, 0, 0⟩) "1/1/2024" []) ∧
    parsePaypalCSV (fun _ => ⟨2024, 1, 1, 0, 0, 0⟩) "1/1/2024"
        [("bad.csv", [[("Gross", "5.00")]])] =
      .ok (summarize (fun _ => ⟨2024, 1, 1, 0, 0, 0⟩) "1/1/2024" []) :=
  ⟨(C1_zero_valid_rows_resolves (fun _ => ⟨2024, 1, 1, 0, 0, 0⟩)
      "2024-01-01T00:00:00" "1/1/2024" [("bad.csv", [[("Amount", "abc")]])]
      [("bad.csv", [[("Gross", "5.00")]])] (by decide) (by decide)).1,
   (C1_zero_valid_rows_resolves (fun _ => ⟨2024, 1, 1, 0, 0, 0⟩)
      "2024-01-01T00:00:00" "1/1/2024" [("bad.csv", [[("Amount", "abc")]])]
      [("bad.csv", [[("Gross", "5.00")]])] (by decide) (by decide)).2.1⟩
